import Mathlib

/-!
# Terraform provider for OpenStack: resource handlers

A shallow embedding of the handlers in `src/openstack`:

* `data_source_openstack_blockstorage_snapshot_v3.go`
* `resource_openstack_blockstorage_volume_attach_v2.go`
* `resource_openstack_networking_network_v2.go`

and of two acceptance checks, `testAccCheckNetworkingV2TrunkExists` in
`resource_openstack_networking_trunk_v2_test.go` and
`testAccCheckSiteConnectionV2Destroy` in
`resource_openstack_vpnaas_site_connection_test.go`.

The handlers are straight-line Go: they read attributes from a
`schema.ResourceData`, build option structs, call gophercloud, and write
attributes back.  Every call into gophercloud or into the plugin SDK's
`StateChangeConf` happens at most once per call site, so the outside world
is given as one result per call site (an `Env` record), and every handler
returns the diagnostics, the resource data it leaves behind, and the
sequence of events (calls with their arguments, `SetId`) it performed.
-/

namespace Openstack

/-! ## Plugin SDK: schema -/

/-- The `schema.ValueType` constants used by the three schemas. -/
inductive ValueType
  | TypeBool
  | TypeInt
  | TypeString
  | TypeList
  | TypeMap
  | TypeSet
  deriving DecidableEq, Repr

/-- What `Elem` points to: a `schema.Schema` of `TypeString`, or a
`schema.Resource` (only `segments` of the network resource has one). -/
inductive Elem
  | schemaString
  | resource
  deriving DecidableEq, Repr

/-- One element of the `segments` set of the network resource
(`physical_network`, `network_type`, `segmentation_id`). -/
structure Segment where
  physical_network : String
  network_type : String
  segmentation_id : Int
  deriving DecidableEq, Repr

/-- The attribute values that occur in the three schemas. -/
inductive Value
  | bool (b : Bool)
  | int (n : Int)
  | string (s : String)
  | list (l : List String)
  | map (m : List (String × String))
  | set (l : List String)
  | segments (l : List Segment)
  deriving DecidableEq, Repr

/-- A `schema.SchemaValidateFunc`: value and attribute name to warnings and
errors. -/
abbrev SchemaValidateFunc := Value → String → List String × List String

/-- The fields of `schema.Schema` that the three schemas set. -/
structure Schema where
  Type_ : ValueType
  Required : Bool := false
  Optional : Bool := false
  Computed : Bool := false
  ForceNew : Bool := false
  Sensitive : Bool := false
  Deprecated : String := ""
  Elem : Option Elem := none
  ValidateFunc : Option SchemaValidateFunc := none

/-- A `map[string]*schema.Schema`. -/
abbrev SchemaMap := List (String × Schema)

/-- Whether a value has the shape the schema entry declares. -/
def Value.conforms (v : Value) (s : Schema) : Bool :=
  match v, s.Type_, s.Elem with
  | .bool _, .TypeBool, _ => true
  | .int _, .TypeInt, _ => true
  | .string _, .TypeString, _ => true
  | .list _, .TypeList, _ => true
  | .map _, .TypeMap, _ => true
  | .set _, .TypeSet, some .schemaString => true
  | .segments _, .TypeSet, some .resource => true
  | _, _, _ => false

/-- The zero value of a schema entry (`ValueType.Zero`). -/
def Schema.zero (s : Schema) : Value :=
  match s.Type_, s.Elem with
  | .TypeBool, _ => .bool false
  | .TypeInt, _ => .int 0
  | .TypeString, _ => .string ""
  | .TypeList, _ => .list []
  | .TypeMap, _ => .map []
  | .TypeSet, some .resource => .segments []
  | .TypeSet, _ => .set []

/-! ## Plugin SDK: resource data -/

/-- A `schema.ResourceData`: the ID, the prior state, the configuration
merged with the planned diff, the keys whose planned value is not yet
known, and the values written through `d.Set` (most recent first). -/
structure ResourceData where
  id : String
  state : List (String × Value)
  config : List (String × Value)
  computed : List String
  written : List (String × Value)
  deriving DecidableEq, Repr

/-- A `schema.FieldReadResult`. -/
structure FieldReadResult where
  Value : Option Value
  Exists : Bool
  Computed : Bool
  deriving DecidableEq, Repr

/-- The stored value at one level, kept only when it has the declared
shape: the SDK's field readers decode every attribute by its schema
type. -/
def readLevel (s : Schema) (level : List (String × Value)) (key : String) : Option Value :=
  match level.lookup key with
  | some v => if v.conforms s then some v else none
  | none => none

/-- The merged read at level `set` (`MultiLevelFieldReader.ReadFieldMerge`):
a key that the schema does not declare gives the empty result; otherwise
the highest level that has the key wins, in the order state, config and
diff, set writer. -/
def ResourceData.readField (sch : SchemaMap) (d : ResourceData) (key : String) :
    FieldReadResult :=
  match sch.lookup key with
  | none => { Value := none, Exists := false, Computed := false }
  | some s =>
    match readLevel s d.written key with
    | some v => { Value := some v, Exists := true, Computed := false }
    | none =>
      if key ∈ d.computed then
        { Value := some s.zero, Exists := true, Computed := true }
      else
        match readLevel s d.config key with
        | some v => { Value := some v, Exists := true, Computed := false }
        | none =>
          match readLevel s d.state key with
          | some v => { Value := some v, Exists := true, Computed := false }
          | none => { Value := none, Exists := false, Computed := false }

/-- The SDK's `d.Get(key)`: the merged value, the zero value of the schema
type when there is none, and `nil` (here `none`) when the schema does not
declare the key. -/
def ResourceData.Get (sch : SchemaMap) (d : ResourceData) (key : String) : Option Value :=
  match (d.readField sch key).Value, sch.lookup key with
  | some v, _ => some v
  | none, some s => some s.zero
  | none, none => none

/-- The SDK's `d.GetOk(key)`: the value, and whether it exists, is known
and differs from the zero value of its type. -/
def ResourceData.GetOk (sch : SchemaMap) (d : ResourceData) (key : String) :
    Option Value × Bool :=
  let r := d.readField sch key
  let exists_ := r.Exists && !r.Computed
  match sch.lookup key with
  | some s =>
    (d.Get sch key, exists_ && decide (d.Get sch key ≠ some s.zero))
  | none => (d.Get sch key, false)

/-- The SDK's `d.GetOkExists(key)`: the value, and whether it exists and is
known, the zero value included. -/
def ResourceData.GetOkExists (sch : SchemaMap) (d : ResourceData) (key : String) :
    Option Value × Bool :=
  let r := d.readField sch key
  (d.Get sch key, r.Exists && !r.Computed)

/-- The SDK's `d.Set(key, value)`: an error when the schema does not declare
the key or the value does not have the declared shape, a write to the set
writer otherwise. -/
def ResourceData.Set (sch : SchemaMap) (d : ResourceData) (key : String) (v : Value) :
    Except String ResourceData :=
  match sch.lookup key with
  | none => .error ("Invalid address to set: " ++ key)
  | some s =>
    if v.conforms s then .ok { d with written := (key, v) :: d.written }
    else .error (key ++ ": value does not match the schema type")

/-- A `d.Set(key, value)` whose error the caller drops or only logs. -/
def ResourceData.SetIgnoreErr (sch : SchemaMap) (d : ResourceData) (key : String) (v : Value) :
    ResourceData :=
  match d.Set sch key v with
  | .ok d' => d'
  | .error _ => d

/-- The SDK's `d.SetId(id)`. -/
def ResourceData.SetId (d : ResourceData) (id : String) : ResourceData :=
  { d with id := id }

/-- The Go type assertion `.(string)`; it cannot fail on the `d.Get` of a key
declared `TypeString`, which is how the handlers use it. -/
def asString : Option Value → String
  | some (.string s) => s
  | _ => ""

/-- The Go type assertion `.(bool)` on the `d.Get` of a `TypeBool` key. -/
def asBool : Option Value → Bool
  | some (.bool b) => b
  | _ => false

/-- The Go type assertion `.(int)` on the `d.Get` of a `TypeInt` key. -/
def asInt : Option Value → Int
  | some (.int n) => n
  | _ => 0

/-- The Go type assertion `.([]string)`. -/
def asStringList : Option Value → List String
  | some (.list l) => l
  | _ => []

/-- The `.(*schema.Set)` assertion followed by `.List()` on a set of
strings. -/
def asStringSet : Option Value → List String
  | some (.set l) => l
  | _ => []

/-- The `.(*schema.Set)` assertion on the `segments` attribute. -/
def asSegments : Option Value → List Segment
  | some (.segments l) => l
  | _ => []

/-- How `HasChange` compares an old and a new value: sets implement the SDK's
`Equal` and are compared as sets, everything else with `reflect.DeepEqual`. -/
def Value.equal : Value → Value → Bool
  | .set a, .set b => a.all (fun x => decide (x ∈ b)) && b.all (fun x => decide (x ∈ a))
  | .segments a, .segments b =>
    a.all (fun x => decide (x ∈ b)) && b.all (fun x => decide (x ∈ a))
  | a, b => decide (a = b)

/-- The SDK's `d.GetChange(key)`: the value in the prior state, and the value
that state, configuration and diff give together, without what `d.Set` has
written; each is the zero value of the schema type when there is none. -/
def ResourceData.GetChange (sch : SchemaMap) (d : ResourceData) (key : String) :
    Option Value × Option Value :=
  (ResourceData.Get sch { d with config := [], computed := [], written := [] } key,
   ResourceData.Get sch { d with written := [] } key)

/-- The SDK's `d.HasChange(key)`. -/
def ResourceData.HasChange (sch : SchemaMap) (d : ResourceData) (key : String) : Bool :=
  match d.GetChange sch key with
  | (some o, some n) => !(o.equal n)
  | (none, none) => false
  | _ => true

/-! ## Errors, diagnostics, events -/

/-- A Go `error` returned by gophercloud or the SDK: the 404 error type
`gophercloud.ErrDefault404` is told apart from every other error. -/
inductive GoError
  | ErrDefault404 (msg : String)
  | other (msg : String)
  deriving DecidableEq, Repr

/-- The `Error()` text. -/
def GoError.Error : GoError → String
  | .ErrDefault404 m => m
  | .other m => m

/-- The `diag.Diagnostics` a handler returns: the summaries of its error
diagnostics (`nil` is the empty list). -/
abbrev Diagnostics := List String

/-- The timeout keys `schema.TimeoutCreate` and `schema.TimeoutDelete`. -/
inductive TimeoutKey
  | TimeoutCreate
  | TimeoutDelete
  deriving DecidableEq, Repr

/-- The pieces of `resource.StateChangeConf` that the handlers fix; the
refresh function always polls the status of `refreshID`, `Timeout` is
`d.Timeout` of the given key, delays are in seconds. -/
structure StateChangeConf where
  Pending : List String
  Target : List String
  refreshID : String
  Timeout : TimeoutKey
  Delay : Nat
  MinTimeout : Nat
  deriving DecidableEq, Repr

/-- The fields of `schema.Resource` that the three files set: which
handlers are present, the default timeouts in minutes, and the schema. -/
structure Resource where
  CreateContext : Bool := false
  ReadContext : Bool := false
  UpdateContext : Bool := false
  DeleteContext : Bool := false
  Importer : Bool := false
  TimeoutCreate : Option Nat := none
  TimeoutDelete : Option Nat := none
  DeprecationMessage : String := ""
  Schema : SchemaMap

/-! ## gophercloud types -/

/-- The fields of `snapshots.Snapshot` (block storage v3) that the data
source reads. -/
structure Snapshot where
  ID : String
  Name : String
  Description : String
  VolumeID : String
  Status : String
  Size : Int
  Metadata : List (String × String)
  deriving DecidableEq, Repr

/-- The fields of `snapshots.ListOpts` that the data source sets. -/
structure ListOpts where
  Name : String
  Status : String
  VolumeID : String
  deriving DecidableEq, Repr

/-- A `volumeactions.InitializeConnectionOpts`; `Multipath` is a `*bool`. -/
structure InitializeConnectionOpts where
  IP : String := ""
  Host : String := ""
  Initiator : String := ""
  Wwpns : List String := []
  Wwnns : String := ""
  Multipath : Option Bool := none
  Platform : String := ""
  OSType : String := ""
  deriving DecidableEq, Repr

/-- A `volumeactions.TerminateConnectionOpts`. -/
structure TerminateConnectionOpts where
  IP : String := ""
  Host : String := ""
  Initiator : String := ""
  Wwpns : List String := []
  Wwnns : String := ""
  Multipath : Option Bool := none
  Platform : String := ""
  OSType : String := ""
  deriving DecidableEq, Repr

/-- The fields of `volumeactions.AttachOpts` that Create sets. -/
structure AttachOpts where
  HostName : String
  MountPoint : String
  Mode : String
  deriving DecidableEq, Repr

/-- A `volumeactions.DetachOpts`. -/
structure DetachOpts where
  AttachmentID : String
  deriving DecidableEq, Repr

/-- A `volumes.Attachment` (block storage v2). -/
structure Attachment where
  AttachmentID : String := ""
  Device : String := ""
  HostName : String := ""
  ID : String := ""
  ServerID : String := ""
  VolumeID : String := ""
  deriving DecidableEq, Repr

/-- The fields of `volumes.Volume` that the handlers read. -/
structure Volume where
  ID : String := ""
  Status : String := ""
  Attachments : List Attachment := []
  deriving DecidableEq, Repr

/-- An empty-interface value inside the connection info: a string, or
anything else. -/
inductive Iface
  | str (s : String)
  | other
  deriving DecidableEq, Repr

/-- The connection info that `InitializeConnection(...).Extract()` returns, a
string-keyed map of empty-interface values, restricted to the three keys Create looks up;
`data`, when present, is itself a map (Create asserts so). -/
structure ConnInfo where
  data : Option (List (String × Iface)) := none
  driver_volume_type : Option Iface := none
  mount_point_base : Option Iface := none
  deriving DecidableEq, Repr

/-- A `networks.CreateOpts` together with the `ValueSpecs` that the
provider's `NetworkCreateOpts` adds; `AdminStateUp` and `Shared` are
`*bool`. -/
structure NetworkCreateOpts where
  AdminStateUp : Option Bool := none
  Name : String := ""
  Description : String := ""
  Shared : Option Bool := none
  TenantID : String := ""
  AvailabilityZoneHints : List String := []
  ValueSpecs : List (String × String) := []
  deriving DecidableEq, Repr

/-- A `networks.CreateOptsBuilder` as Create assembles it: the basic options
wrapped in zero or more extension structs, innermost first. -/
inductive CreateOptsBuilder
  | base (opts : NetworkCreateOpts)
  | providerExt (inner : CreateOptsBuilder) (Segments : List Segment)
  | externalExt (inner : CreateOptsBuilder) (External : Option Bool)
  | vlantransparentExt (inner : CreateOptsBuilder) (VLANTransparent : Option Bool)
  | portsecurityExt (inner : CreateOptsBuilder) (PortSecurityEnabled : Option Bool)
  | mtuExt (inner : CreateOptsBuilder) (MTU : Int)
  | dnsExt (inner : CreateOptsBuilder) (DNSDomain : String)
  | policiesExt (inner : CreateOptsBuilder) (QoSPolicyID : String)
  deriving DecidableEq, Repr

/-- The provider's `networkExtended`: a `networks.Network` with the
external, VLAN-transparent, port-security, MTU, DNS, QoS and provider
extensions. -/
structure NetworkExtended where
  ID : String := ""
  Name : String := ""
  Description : String := ""
  AdminStateUp : Bool := false
  Status : String := ""
  TenantID : String := ""
  Shared : Bool := false
  AvailabilityZoneHints : List String := []
  Tags : List String := []
  External : Bool := false
  VLANTransparent : Bool := false
  PortSecurityEnabled : Bool := false
  MTU : Int := 0
  DNSDomain : String := ""
  QoSPolicyID : String := ""
  NetworkType : String := ""
  PhysicalNetwork : String := ""
  SegmentationID : String := ""
  Segments : List Segment := []
  deriving DecidableEq, Repr

/-- A `networks.UpdateOpts`: every field is a pointer. -/
structure UpdateOpts where
  AdminStateUp : Option Bool := none
  Name : Option String := none
  Description : Option String := none
  Shared : Option Bool := none
  deriving DecidableEq, Repr

/-- A `networks.UpdateOptsBuilder` as Update assembles it: the basic options
wrapped in zero or more extension structs, innermost first. -/
inductive UpdateOptsBuilder
  | base (opts : UpdateOpts)
  | externalExt (inner : UpdateOptsBuilder) (External : Option Bool)
  | portsecurityExt (inner : UpdateOptsBuilder) (PortSecurityEnabled : Option Bool)
  | mtuExt (inner : UpdateOptsBuilder) (MTU : Int)
  | dnsExt (inner : UpdateOptsBuilder) (DNSDomain : Option String)
  | policiesExt (inner : UpdateOptsBuilder) (QoSPolicyID : Option String)
  | providerExt (inner : UpdateOptsBuilder) (Segments : Option (List Segment))
  deriving DecidableEq, Repr

/-- What a handler does that is visible outside it: the calls into the
provider configuration, gophercloud and the SDK's wait, with their
arguments, and `d.SetId`. -/
inductive Event
  | BlockStorageV3Client (region : String)
  | SnapshotsList (opts : ListOpts)
  | BlockStorageV2Client (region : String)
  | InitializeConnection (volumeID : String) (opts : InitializeConnectionOpts)
  | Attach (volumeID : String) (opts : AttachOpts)
  | TerminateConnection (volumeID : String) (opts : TerminateConnectionOpts)
  | Detach (volumeID : String) (opts : DetachOpts)
  | VolumesGet (volumeID : String)
  | WaitForStateContext (conf : StateChangeConf)
  | NetworkingV2Client (region : String)
  | NetworksCreate (opts : CreateOptsBuilder)
  | NetworksGet (id : String)
  | NetworksDelete (id : String)
  | NetworksUpdate (id : String) (opts : UpdateOptsBuilder)
  | TagsReplaceAll (id : String) (tags : List String)
  | SetId (id : String)
  deriving DecidableEq, Repr

/-- A handler in progress: the resource data and the events so far, oldest
first. -/
structure Run where
  d : ResourceData
  events : List Event
  deriving DecidableEq, Repr

/-- Record a call. -/
def Run.call (r : Run) (e : Event) : Run :=
  { r with events := r.events ++ [e] }

/-- The handler calls `d.SetId(id)`. -/
def Run.SetId (r : Run) (id : String) : Run :=
  { d := r.d.SetId id, events := r.events ++ [.SetId id] }

/-- The handler calls `d.Set(key, value)` and drops or logs the error. -/
def Run.Set (sch : SchemaMap) (r : Run) (key : String) (v : Value) : Run :=
  { r with d := r.d.SetIgnoreErr sch key v }

/-- What a handler returns and leaves behind. -/
structure Outcome where
  diags : Diagnostics
  run : Run
  deriving DecidableEq, Repr

/-- The functions of this provider that the three files call and that live
in other files of the package; the handlers take them as given.  `Config`
is the provider configuration type. -/
structure Helpers (Config : Type) where
  GetRegion : ResourceData → Config → String
  dataSourceBlockStorageV3MostRecentSnapshot : List Snapshot → Snapshot
  expandBlockStorageV2AttachMode : String → Except GoError String
  blockStorageVolumeAttachV2ParseID : String → Except GoError (String × String)
  CheckDeleted : ResourceData → GoError → String → ResourceData × Option GoError
  MapValueSpecs : ResourceData → List (String × String)
  expandToStringSlice : List String → List String
  expandNetworkingNetworkSegmentsV2 : List Segment → List Segment
  networkingV2AttributesTags : ResourceData → List String
  flattenNetworkingNetworkSegmentsV2 : NetworkExtended → List Segment
  networkingV2ReadAttributesTags : ResourceData → List String → ResourceData

/-! ## `data_source_openstack_blockstorage_snapshot_v3.go` -/

/-- The resource that `dataSourceBlockStorageSnapshotV3()` returns. -/
def dataSourceBlockStorageSnapshotV3 : Resource where
  ReadContext := true
  Schema := [
    ("region", { Type_ := .TypeString, Optional := true, Computed := true }),
    ("name", { Type_ := .TypeString, Optional := true, Computed := true }),
    ("status", { Type_ := .TypeString, Optional := true, Computed := true }),
    ("volume_id", { Type_ := .TypeString, Optional := true, Computed := true }),
    ("most_recent", { Type_ := .TypeBool, Optional := true }),
    ("description", { Type_ := .TypeString, Computed := true }),
    ("size", { Type_ := .TypeInt, Computed := true }),
    ("metadata", { Type_ := .TypeMap, Computed := true })]

/-- The results of the three fallible steps of the snapshot data source's
Read: client creation, `snapshots.List(...).AllPages()`, and
`snapshots.ExtractSnapshots`. -/
structure SnapshotReadEnv where
  BlockStorageV3Client : Except GoError Unit
  AllPages : Except GoError Unit
  ExtractSnapshots : Except GoError (List Snapshot)

/-- The function `dataSourceBlockStorageSnapshotV3Attributes`. -/
def dataSourceBlockStorageSnapshotV3Attributes (r : Run) (snapshot : Snapshot) : Run :=
  let sch := dataSourceBlockStorageSnapshotV3.Schema
  let r := r.SetId snapshot.ID
  let r := r.Set sch "name" (.string snapshot.Name)
  let r := r.Set sch "description" (.string snapshot.Description)
  let r := r.Set sch "size" (.int snapshot.Size)
  let r := r.Set sch "status" (.string snapshot.Status)
  let r := r.Set sch "volume_id" (.string snapshot.VolumeID)
  r.Set sch "metadata" (.map snapshot.Metadata)

/-- The function `dataSourceBlockStorageSnapshotV3Read`. -/
def dataSourceBlockStorageSnapshotV3Read {Config : Type} (h : Helpers Config)
    (d : ResourceData) (config : Config) (env : SnapshotReadEnv) : Outcome :=
  let sch := dataSourceBlockStorageSnapshotV3.Schema
  let r : Run := { d := d, events := [] }
  let r := r.call (.BlockStorageV3Client (h.GetRegion d config))
  match env.BlockStorageV3Client with
  | .error err =>
    ⟨["Error creating OpenStack block storage client: " ++ err.Error], r⟩
  | .ok _ =>
    let listOpts : ListOpts :=
      { Name := asString (d.Get sch "name"),
        Status := asString (d.Get sch "status"),
        VolumeID := asString (d.Get sch "volume_id") }
    let r := r.call (.SnapshotsList listOpts)
    match env.AllPages with
    | .error err =>
      ⟨["Unable to query viettelidc_blockstorage_snapshots_v3: " ++ err.Error], r⟩
    | .ok _ =>
      match env.ExtractSnapshots with
      | .error err =>
        ⟨["Unable to retrieve viettelidc_blockstorage_snapshots_v3: " ++ err.Error], r⟩
      | .ok allSnapshots =>
        if hlen : allSnapshots.length < 1 then
          ⟨["Your viettelidc_blockstorage_snapshot_v3 query returned no results. " ++
            "Please change your search criteria and try again."], r⟩
        else
          if allSnapshots.length > 1 then
            let recent := asBool (d.Get sch "most_recent")
            if recent then
              let snapshot := h.dataSourceBlockStorageV3MostRecentSnapshot allSnapshots
              ⟨[], dataSourceBlockStorageSnapshotV3Attributes r snapshot⟩
            else
              ⟨["Your query returned more than one result. Please try a more " ++
                "specific search criteria, or set `most_recent` attribute to true."], r⟩
          else
            let snapshot := allSnapshots[0]
            ⟨[], dataSourceBlockStorageSnapshotV3Attributes r snapshot⟩

/-! ## Plugin SDK: validators -/

/-- The text that the format verb `%v` gives for a slice of strings. -/
def formatStrings (l : List String) : String :=
  "[" ++ " ".intercalate l ++ "]"

/-- Go's `strings.EqualFold`, on the ASCII letters. -/
def EqualFold (a b : String) : Bool :=
  a.toLower == b.toLower

/-- The SDK's `validation.StringInSlice(valid, ignoreCase)`. -/
def StringInSlice (valid : List String) (ignoreCase : Bool) : SchemaValidateFunc :=
  fun i k =>
    match i with
    | .string v =>
      if valid.any (fun str => v == str || (ignoreCase && EqualFold v str)) then ([], [])
      else ([], ["expected " ++ k ++ " to be one of " ++ formatStrings valid ++ ", got " ++ v])
    | _ => ([], ["expected type of " ++ k ++ " to be string"])

/-- The regular expressions that the network schema needs: the empty
expression, the assertions `^` and `$` (without the multi-line flag: begin
and end of the text), one literal character, concatenation and
alternation. -/
inductive Regexp
  | emptyMatch
  | beginText
  | endText
  | lit (c : Char)
  | cat (a b : Regexp)
  | alt (a b : Regexp)
  deriving DecidableEq, Repr

/-- The positions at which a match of `r` that starts at position `i` of
`s` can end. -/
def Regexp.matchEnds (r : Regexp) (s : List Char) (i : Nat) : List Nat :=
  match r with
  | .emptyMatch => [i]
  | .beginText => if i = 0 then [i] else []
  | .endText => if i = s.length then [i] else []
  | .lit c => if s.get? i = some c then [i + 1] else []
  | .cat a b => (a.matchEnds s i).flatMap (fun j => b.matchEnds s j)
  | .alt a b => a.matchEnds s i ++ b.matchEnds s i

/-- Go's `(*Regexp).MatchString`: whether the text contains a match, starting
anywhere. -/
def Regexp.MatchString (r : Regexp) (s : String) : Bool :=
  (List.range (s.data.length + 1)).any (fun i => !(r.matchEnds s.data i).isEmpty)

/-- The SDK's `validation.StringMatch(r, message)`; `shown` is the source text
of `r`, which the message without a custom text quotes. -/
def StringMatch (r : Regexp) (shown : String) (message : String) : SchemaValidateFunc :=
  fun i k =>
    match i with
    | .string v =>
      if !r.MatchString v then
        if message ≠ "" then ([], ["invalid value for " ++ k ++ " (" ++ message ++ ")"])
        else ([], ["expected value of " ++ k ++ " to match regular expression " ++
          shown.quote ++ ", got " ++ v])
      else ([], [])
    | _ => ([], ["expected type of " ++ k ++ " to be string"])

/-! ## `resource_openstack_blockstorage_volume_attach_v2.go` -/

/-- The resource that `resourceBlockStorageVolumeAttachV2()` returns. -/
def resourceBlockStorageVolumeAttachV2 : Resource where
  CreateContext := true
  ReadContext := true
  DeleteContext := true
  TimeoutCreate := some 10
  TimeoutDelete := some 10
  DeprecationMessage := "use viettelidc_blockstorage_volume_attach_v3 resource instead"
  Schema := [
    ("region", { Type_ := .TypeString, Optional := true, Computed := true, ForceNew := true }),
    ("volume_id", { Type_ := .TypeString, Required := true, ForceNew := true }),
    ("instance_id", { Type_ := .TypeString, Optional := true, ForceNew := true,
                      Deprecated := "instance_id is no longer used in this resource" }),
    ("host_name", { Type_ := .TypeString, Required := true, ForceNew := true }),
    ("device", { Type_ := .TypeString, Optional := true, ForceNew := true }),
    ("attach_mode", { Type_ := .TypeString, Optional := true, ForceNew := true,
                      ValidateFunc := some (StringInSlice ["ro", "rw"] false) }),
    ("initiator", { Type_ := .TypeString, Optional := true, ForceNew := true }),
    ("ip_address", { Type_ := .TypeString, Optional := true, ForceNew := true }),
    ("multipath", { Type_ := .TypeBool, Optional := true, ForceNew := true }),
    ("os_type", { Type_ := .TypeString, Optional := true, ForceNew := true }),
    ("platform", { Type_ := .TypeString, Optional := true, ForceNew := true }),
    ("wwpn", { Type_ := .TypeList, Optional := true, ForceNew := true,
               Elem := some .schemaString }),
    ("wwnn", { Type_ := .TypeString, Optional := true, ForceNew := true }),
    ("data", { Type_ := .TypeMap, Computed := true, Sensitive := true }),
    ("driver_volume_type", { Type_ := .TypeString, Computed := true }),
    ("mount_point_base", { Type_ := .TypeString, Computed := true })]

/-- The results of the fallible steps of the volume attachment's Read. -/
structure VolumeAttachReadEnv where
  BlockStorageV2Client : Except GoError Unit
  VolumesGet : Except GoError Volume

/-- The results of the fallible steps of the volume attachment's Create, in
the order of the call sites; `Read` is for the Read that Create ends
with. -/
structure VolumeAttachCreateEnv where
  BlockStorageV2Client : Except GoError Unit
  InitializeConnection : Except GoError ConnInfo
  Attach : Option GoError
  WaitForStateContext : Option GoError
  VolumesGet : Except GoError Volume
  Read : VolumeAttachReadEnv

/-- The results of the fallible steps of the volume attachment's Delete. -/
structure VolumeAttachDeleteEnv where
  BlockStorageV2Client : Except GoError Unit
  TerminateConnection : Option GoError
  Detach : Option GoError
  WaitForStateContext : Option GoError

/-- A handler that another handler ends with: the events of the caller come
first. -/
def Outcome.after (events : List Event) (out : Outcome) : Outcome :=
  { diags := out.diags, run := { d := out.run.d, events := events ++ out.run.events } }

/-- The `d.Set(key, v)` of an empty-interface value from the connection info
into a `TypeString` attribute: a string is written, anything else is an
error that Create drops. -/
def Run.SetIface (sch : SchemaMap) (r : Run) (key : String) (v : Iface) : Run :=
  match v with
  | .str s => r.Set sch key (.string s)
  | .other => r

/-- The function `resourceBlockStorageVolumeAttachV2Read`.  The attachment
that the loop finds is only logged. -/
def resourceBlockStorageVolumeAttachV2Read {Config : Type} (h : Helpers Config)
    (d : ResourceData) (config : Config) (env : VolumeAttachReadEnv) : Outcome :=
  let r : Run := { d := d, events := [] }
  let r := r.call (.BlockStorageV2Client (h.GetRegion d config))
  match env.BlockStorageV2Client with
  | .error err =>
    ⟨["Error creating OpenStack block storage client: " ++ err.Error], r⟩
  | .ok _ =>
    match h.blockStorageVolumeAttachV2ParseID d.id with
    | .error err => ⟨[err.Error], r⟩
    | .ok (volumeID, attachmentID) =>
      let r := r.call (.VolumesGet volumeID)
      match env.VolumesGet with
      | .error err =>
        ⟨["Unable to retrieve viettelidc_blockstorage_volume_attach_v2 volume " ++
          volumeID ++ ": " ++ err.Error], r⟩
      | .ok volume =>
        let _attachment : Attachment :=
          volume.Attachments.foldl
            (fun attachment v => if attachmentID = v.AttachmentID then v else attachment) {}
        ⟨[], r⟩

/-- The connection options that Create builds from the resource data before
it calls `InitializeConnection` (the block from `connOpts := ...` to the
`wwpns` lookup). -/
def resourceBlockStorageVolumeAttachV2CreateConnOpts (d : ResourceData) :
    InitializeConnectionOpts :=
  let sch := resourceBlockStorageVolumeAttachV2.Schema
  let connOpts : InitializeConnectionOpts := {}
  let connOpts :=
    if (d.GetOk sch "host_name").2 then
      { connOpts with Host := asString (d.GetOk sch "host_name").1 }
    else connOpts
  let connOpts :=
    if (d.GetOk sch "multipath").2 then
      { connOpts with Multipath := some (asBool (d.GetOk sch "multipath").1) }
    else connOpts
  let connOpts :=
    if (d.GetOk sch "ip_address").2 then
      { connOpts with IP := asString (d.GetOk sch "ip_address").1 }
    else connOpts
  let connOpts :=
    if (d.GetOk sch "initiator").2 then
      { connOpts with Initiator := asString (d.GetOk sch "initiator").1 }
    else connOpts
  let connOpts :=
    if (d.GetOk sch "os_type").2 then
      { connOpts with OSType := asString (d.GetOk sch "os_type").1 }
    else connOpts
  let connOpts :=
    if (d.GetOk sch "platform").2 then
      { connOpts with Platform := asString (d.GetOk sch "platform").1 }
    else connOpts
  let connOpts :=
    if (d.GetOk sch "wwnns").2 then
      { connOpts with Wwnns := asString (d.GetOk sch "wwnns").1 }
    else connOpts
  let connOpts :=
    if (d.GetOk sch "wwpns").2 then
      { connOpts with Wwpns := [] ++ asStringList (d.GetOk sch "wwpns").1 }
    else connOpts
  connOpts

/-- The part of Create that records the connection info in the resource
data (the three lookups `data`, `driver_volume_type` and
`mount_point_base`): this information is only returned upon creation, so
it is set in Create. -/
def resourceBlockStorageVolumeAttachV2CreateSetConnInfo (r : Run) (connInfo : ConnInfo) :
    Run :=
  let sch := resourceBlockStorageVolumeAttachV2.Schema
  let r :=
    match connInfo.data with
    | some v =>
      let data := v.filterMap (fun kv =>
        match kv.2 with
        | .str x => some (kv.1, x)
        | .other => none)
      r.Set sch "data" (.map data)
    | none => r
  let r :=
    match connInfo.driver_volume_type with
    | some v => r.SetIface sch "driver_volume_type" v
    | none => r
  let r :=
    match connInfo.mount_point_base with
    | some v => r.SetIface sch "mount_point_base" v
    | none => r
  r

/-- The function `resourceBlockStorageVolumeAttachV2Create`. -/
def resourceBlockStorageVolumeAttachV2Create {Config : Type} (h : Helpers Config)
    (d : ResourceData) (config : Config) (env : VolumeAttachCreateEnv) : Outcome :=
  let sch := resourceBlockStorageVolumeAttachV2.Schema
  let r : Run := { d := d, events := [] }
  let r := r.call (.BlockStorageV2Client (h.GetRegion d config))
  match env.BlockStorageV2Client with
  | .error err =>
    ⟨["Error creating OpenStack block storage client: " ++ err.Error], r⟩
  | .ok _ =>
    -- initialize the connection
    let volumeID := asString (d.Get sch "volume_id")
    let connOpts := resourceBlockStorageVolumeAttachV2CreateConnOpts d
    let r := r.call (.InitializeConnection volumeID connOpts)
    match env.InitializeConnection with
    | .error err =>
      ⟨["Unable to initialize connection for viettelidc_blockstorage_volume_attach_v2: " ++
        err.Error], r⟩
    | .ok connInfo =>
      let r := resourceBlockStorageVolumeAttachV2CreateSetConnInfo r connInfo
      -- once the connection has been made, tell Cinder to mark the volume as attached
      match h.expandBlockStorageV2AttachMode (asString (r.d.Get sch "attach_mode")) with
      | .error _ => ⟨[], r⟩
      | .ok attachMode =>
        let attachOpts : AttachOpts :=
          { HostName := asString (r.d.Get sch "host_name"),
            MountPoint := asString (r.d.Get sch "device"),
            Mode := attachMode }
        let r := r.call (.Attach volumeID attachOpts)
        match env.Attach with
        | some err =>
          ⟨["Error attaching viettelidc_blockstorage_volume_attach_v2 for volume " ++
            volumeID ++ ": " ++ err.Error], r⟩
        | none =>
          let stateConf : StateChangeConf :=
            { Pending := ["available", "attaching"],
              Target := ["in-use"],
              refreshID := volumeID,
              Timeout := .TimeoutCreate,
              Delay := 10,
              MinTimeout := 3 }
          let r := r.call (.WaitForStateContext stateConf)
          match env.WaitForStateContext with
          | some err =>
            ⟨["Error waiting for viettelidc_blockstorage_volume_attach_v2 volume " ++
              volumeID ++ " to become in-use: " ++ err.Error], r⟩
          | none =>
            -- retrieve a fresh copy of the volume
            let r := r.call (.VolumesGet volumeID)
            match env.VolumesGet with
            | .error err =>
              ⟨["Unable to retrieve viettelidc_blockstorage_volume_attach_v2 volume " ++
                volumeID ++ ": " ++ err.Error], r⟩
            | .ok volume =>
              -- search for the attachmentID
              let hostName := asString (r.d.Get sch "host_name")
              let attachmentID : String :=
                volume.Attachments.foldl
                  (fun attachmentID attachment =>
                    if hostName ≠ "" ∧ hostName = attachment.HostName then
                      attachment.AttachmentID
                    else attachmentID) ""
              if attachmentID = "" then
                ⟨["Unable to determine attachment ID for " ++
                  "viettelidc_blockstorage_volume_attach_v2 volume " ++ volumeID], r⟩
              else
                let id := volumeID ++ "/" ++ attachmentID
                let r := r.SetId id
                (resourceBlockStorageVolumeAttachV2Read h r.d config env.Read).after r.events

/-- The connection options that Delete builds from the resource data before
it calls `TerminateConnection` (the block from `termOpts := ...` to the
`wwpns` lookup). -/
def resourceBlockStorageVolumeAttachV2DeleteTermOpts (d : ResourceData) :
    TerminateConnectionOpts :=
  let sch := resourceBlockStorageVolumeAttachV2.Schema
  let termOpts : TerminateConnectionOpts := {}
  let termOpts :=
    if (d.GetOk sch "host_name").2 then
      { termOpts with Host := asString (d.GetOk sch "host_name").1 }
    else termOpts
  let termOpts :=
    if (d.GetOk sch "multipath").2 then
      { termOpts with Multipath := some (asBool (d.GetOk sch "multipath").1) }
    else termOpts
  let termOpts :=
    if (d.GetOk sch "ip_address").2 then
      { termOpts with IP := asString (d.GetOk sch "ip_address").1 }
    else termOpts
  let termOpts :=
    if (d.GetOk sch "initiator").2 then
      { termOpts with Initiator := asString (d.GetOk sch "initiator").1 }
    else termOpts
  let termOpts :=
    if (d.GetOk sch "os_type").2 then
      { termOpts with OSType := asString (d.GetOk sch "os_type").1 }
    else termOpts
  let termOpts :=
    if (d.GetOk sch "platform").2 then
      { termOpts with Platform := asString (d.GetOk sch "platform").1 }
    else termOpts
  let termOpts :=
    if (d.GetOk sch "wwnns").2 then
      { termOpts with Wwnns := asString (d.GetOk sch "wwnns").1 }
    else termOpts
  let termOpts :=
    if (d.GetOk sch "wwpns").2 then
      { termOpts with Wwpns := [] ++ asStringList (d.GetOk sch "wwpns").1 }
    else termOpts
  termOpts

/-- The function `resourceBlockStorageVolumeAttachV2Delete`. -/
def resourceBlockStorageVolumeAttachV2Delete {Config : Type} (h : Helpers Config)
    (d : ResourceData) (config : Config) (env : VolumeAttachDeleteEnv) : Outcome :=
  let r : Run := { d := d, events := [] }
  let r := r.call (.BlockStorageV2Client (h.GetRegion d config))
  match env.BlockStorageV2Client with
  | .error err =>
    ⟨["Error creating OpenStack block storage client: " ++ err.Error], r⟩
  | .ok _ =>
    match h.blockStorageVolumeAttachV2ParseID d.id with
    | .error err => ⟨[err.Error], r⟩
    | .ok (volumeID, attachmentID) =>
      -- terminate the connection
      let termOpts := resourceBlockStorageVolumeAttachV2DeleteTermOpts d
      let r := r.call (.TerminateConnection volumeID termOpts)
      match env.TerminateConnection with
      | some err =>
        ⟨["Error terminating viettelidc_blockstorage_volume_attach_v2 connection " ++
          d.id ++ ": " ++ err.Error], r⟩
      | none =>
        -- detach the volume
        let detachOpts : DetachOpts := { AttachmentID := attachmentID }
        let r := r.call (.Detach volumeID detachOpts)
        match env.Detach with
        | some err => ⟨[err.Error], r⟩
        | none =>
          let stateConf : StateChangeConf :=
            { Pending := ["in-use", "attaching", "detaching"],
              Target := ["available"],
              refreshID := volumeID,
              Timeout := .TimeoutDelete,
              Delay := 10,
              MinTimeout := 3 }
          let r := r.call (.WaitForStateContext stateConf)
          match env.WaitForStateContext with
          | some err =>
            ⟨["Error waiting for viettelidc_blockstorage_volume_attach_v2 volume " ++
              volumeID ++ " to become available: " ++ err.Error], r⟩
          | none => ⟨[], r⟩

/-! ## `resource_openstack_networking_network_v2.go` -/

/-- The regular expression of the `dns_domain` validator: the empty text,
or a dot at the end of the text. -/
def dnsDomainRegexp : Regexp :=
  .alt (.cat .beginText .endText) (.cat (.lit '.') .endText)

/-- The source text of `dnsDomainRegexp`. -/
def dnsDomainRegexpSource : String := "^$|\\.$"

/-- The resource that `resourceNetworkingNetworkV2()` returns. -/
def resourceNetworkingNetworkV2 : Resource where
  CreateContext := true
  ReadContext := true
  UpdateContext := true
  DeleteContext := true
  Importer := true
  TimeoutCreate := some 10
  TimeoutDelete := some 10
  Schema := [
    ("region", { Type_ := .TypeString, Optional := true, ForceNew := true, Computed := true }),
    ("name", { Type_ := .TypeString, Optional := true, ForceNew := false }),
    ("description", { Type_ := .TypeString, Optional := true, ForceNew := false }),
    ("admin_state_up", { Type_ := .TypeBool, Optional := true, ForceNew := false,
                         Computed := true }),
    ("shared", { Type_ := .TypeBool, Optional := true, ForceNew := false, Computed := true }),
    ("external", { Type_ := .TypeBool, Optional := true, ForceNew := false, Computed := true }),
    ("tenant_id", { Type_ := .TypeString, Optional := true, ForceNew := true,
                    Computed := true }),
    ("segments", { Type_ := .TypeSet, Optional := true, Computed := true,
                   Elem := some .resource }),
    ("value_specs", { Type_ := .TypeMap, Optional := true, ForceNew := true }),
    ("tags", { Type_ := .TypeSet, Optional := true, Elem := some .schemaString }),
    ("all_tags", { Type_ := .TypeSet, Computed := true, Elem := some .schemaString }),
    ("availability_zone_hints", { Type_ := .TypeSet, Computed := true, ForceNew := true,
                                  Optional := true, Elem := some .schemaString }),
    ("transparent_vlan", { Type_ := .TypeBool, Optional := true, ForceNew := true,
                           Computed := true }),
    ("port_security_enabled", { Type_ := .TypeBool, Optional := true, Computed := true }),
    ("mtu", { Type_ := .TypeInt, Optional := true, Computed := true }),
    ("dns_domain", { Type_ := .TypeString, Optional := true, Computed := true,
                     ValidateFunc := some (StringMatch dnsDomainRegexp dnsDomainRegexpSource
                       ("fully-qualified (unambiguous) DNS domain names must have " ++
                        "a dot at the end")) }),
    ("qos_policy_id", { Type_ := .TypeString, Optional := true, ForceNew := false,
                        Computed := true })]

/-- The field of the `networks.Network` returned by `networks.Create` that
Create uses. -/
structure Network where
  ID : String
  deriving DecidableEq, Repr

/-- The results of the fallible steps of the network's Read. -/
structure NetworkReadEnv where
  NetworkingV2Client : Except GoError Unit
  NetworksGet : Except GoError NetworkExtended

/-- The results of the fallible steps of the network's Create, in the order
of the call sites; `Read` is for the Read that Create ends with. -/
structure NetworkCreateEnv where
  NetworkingV2Client : Except GoError Unit
  NetworksCreate : Except GoError Network
  WaitForStateContext : Option GoError
  TagsReplaceAll : Except GoError (List String)
  Read : NetworkReadEnv

/-- The SDK's `diag.FromErr`: no diagnostics for a nil error. -/
def diagFromErr : Option GoError → Diagnostics
  | none => []
  | some err => [err.Error]

/-- The function `resourceNetworkingNetworkV2Read`. -/
def resourceNetworkingNetworkV2Read {Config : Type} (h : Helpers Config)
    (d : ResourceData) (config : Config) (env : NetworkReadEnv) : Outcome :=
  let sch := resourceNetworkingNetworkV2.Schema
  let r : Run := { d := d, events := [] }
  let r := r.call (.NetworkingV2Client (h.GetRegion d config))
  match env.NetworkingV2Client with
  | .error err =>
    ⟨["Error creating OpenStack networking client: " ++ err.Error], r⟩
  | .ok _ =>
    let r := r.call (.NetworksGet d.id)
    match env.NetworksGet with
    | .error err =>
      let res := h.CheckDeleted r.d err "Error getting viettelidc_networking_network_v2"
      ⟨diagFromErr res.2, { r with d := res.1 }⟩
    | .ok network =>
      let r := r.Set sch "name" (.string network.Name)
      let r := r.Set sch "description" (.string network.Description)
      let r := r.Set sch "admin_state_up" (.bool network.AdminStateUp)
      let r := r.Set sch "shared" (.bool network.Shared)
      let r := r.Set sch "external" (.bool network.External)
      let r := r.Set sch "tenant_id" (.string network.TenantID)
      let r := r.Set sch "segments" (.segments (h.flattenNetworkingNetworkSegmentsV2 network))
      let r := r.Set sch "transparent_vlan" (.bool network.VLANTransparent)
      let r := r.Set sch "port_security_enabled" (.bool network.PortSecurityEnabled)
      let r := r.Set sch "mtu" (.int network.MTU)
      let r := r.Set sch "dns_domain" (.string network.DNSDomain)
      let r := r.Set sch "qos_policy_id" (.string network.QoSPolicyID)
      let r := r.Set sch "region" (.string (h.GetRegion r.d config))
      let r := { r with d := h.networkingV2ReadAttributesTags r.d network.Tags }
      let r := r.Set sch "availability_zone_hints" (.set network.AvailabilityZoneHints)
      ⟨[], r⟩

/-- The create options that Create assembles from the resource data before
it calls `networks.Create` (the block from `azHints := ...` to the QoS
policy extension). -/
def resourceNetworkingNetworkV2CreateOpts {Config : Type} (h : Helpers Config)
    (d : ResourceData) : CreateOptsBuilder :=
  let sch := resourceNetworkingNetworkV2.Schema
  let azHints := asStringSet (d.Get sch "availability_zone_hints")
  let createOpts : NetworkCreateOpts :=
    { Name := asString (d.Get sch "name"),
      Description := asString (d.Get sch "description"),
      TenantID := asString (d.Get sch "tenant_id"),
      AvailabilityZoneHints := h.expandToStringSlice azHints,
      ValueSpecs := h.MapValueSpecs d }
  let createOpts :=
    if (d.GetOkExists sch "admin_state_up").2 then
      { createOpts with AdminStateUp := some (asBool (d.GetOkExists sch "admin_state_up").1) }
    else createOpts
  let createOpts :=
    if (d.GetOkExists sch "shared").2 then
      { createOpts with Shared := some (asBool (d.GetOkExists sch "shared").1) }
    else createOpts
  let finalCreateOpts : CreateOptsBuilder := .base createOpts
  -- add networking segments if specified
  let segments := h.expandNetworkingNetworkSegmentsV2 (asSegments (d.Get sch "segments"))
  let finalCreateOpts :=
    if segments.length > 0 then .providerExt finalCreateOpts segments else finalCreateOpts
  -- add the external attribute if specified
  let isExternal := asBool (d.Get sch "external")
  let finalCreateOpts :=
    if isExternal then .externalExt finalCreateOpts (some isExternal) else finalCreateOpts
  -- add the transparent VLAN attribute if specified
  let isVLANTransparent := asBool (d.Get sch "transparent_vlan")
  let finalCreateOpts :=
    if isVLANTransparent then .vlantransparentExt finalCreateOpts (some isVLANTransparent)
    else finalCreateOpts
  -- add the port security attribute if specified
  let finalCreateOpts :=
    if (d.GetOkExists sch "port_security_enabled").2 then
      .portsecurityExt finalCreateOpts
        (some (asBool (d.GetOkExists sch "port_security_enabled").1))
    else finalCreateOpts
  let mtu := asInt (d.Get sch "mtu")
  -- add the MTU attribute if specified
  let finalCreateOpts :=
    if mtu > 0 then .mtuExt finalCreateOpts mtu else finalCreateOpts
  -- add the DNS domain attribute if specified
  let dnsDomain := asString (d.Get sch "dns_domain")
  let finalCreateOpts :=
    if dnsDomain ≠ "" then .dnsExt finalCreateOpts dnsDomain else finalCreateOpts
  -- add the QoS policy ID attribute if specified
  let qosPolicyID := asString (d.Get sch "qos_policy_id")
  let finalCreateOpts :=
    if qosPolicyID ≠ "" then .policiesExt finalCreateOpts qosPolicyID else finalCreateOpts
  finalCreateOpts

/-- The function `resourceNetworkingNetworkV2Create`. -/
def resourceNetworkingNetworkV2Create {Config : Type} (h : Helpers Config)
    (d : ResourceData) (config : Config) (env : NetworkCreateEnv) : Outcome :=
  let r : Run := { d := d, events := [] }
  let r := r.call (.NetworkingV2Client (h.GetRegion d config))
  match env.NetworkingV2Client with
  | .error err =>
    ⟨["Error creating OpenStack networking client: " ++ err.Error], r⟩
  | .ok _ =>
    let finalCreateOpts := resourceNetworkingNetworkV2CreateOpts h d
    let r := r.call (.NetworksCreate finalCreateOpts)
    match env.NetworksCreate with
    | .error err => ⟨["Error creating viettelidc_networking_network_v2: " ++ err.Error], r⟩
    | .ok n =>
      let stateConf : StateChangeConf :=
        { Pending := ["BUILD"],
          Target := ["ACTIVE", "DOWN"],
          refreshID := n.ID,
          Timeout := .TimeoutCreate,
          Delay := 5,
          MinTimeout := 3 }
      let r := r.call (.WaitForStateContext stateConf)
      match env.WaitForStateContext with
      | some err =>
        ⟨["Error waiting for viettelidc_networking_network_v2 " ++ n.ID ++
          " to become available: " ++ err.Error], r⟩
      | none =>
        let r := r.SetId n.ID
        let tags := h.networkingV2AttributesTags r.d
        if tags.length > 0 then
          let r := r.call (.TagsReplaceAll n.ID tags)
          match env.TagsReplaceAll with
          | .error err =>
            ⟨["Error setting tags on viettelidc_networking_network_v2 " ++ n.ID ++ ": " ++
              err.Error], r⟩
          | .ok _ =>
            (resourceNetworkingNetworkV2Read h r.d config env.Read).after r.events
        else
          (resourceNetworkingNetworkV2Read h r.d config env.Read).after r.events

/-- The results of the fallible steps of the network's Update, in the order
of the call sites; `Read` is for the Read that Update ends with. -/
structure NetworkUpdateEnv where
  NetworkingV2Client : Except GoError Unit
  TagsReplaceAll : Except GoError (List String)
  NetworksUpdate : Except GoError Network
  Read : NetworkReadEnv

/-- The results of the fallible steps of the network's Delete. -/
structure NetworkDeleteEnv where
  NetworkingV2Client : Except GoError Unit
  NetworksDelete : Option GoError
  WaitForStateContext : Option GoError

/-- The basic update options that Update populates from the resource data
(the block `Populate basic updateOpts`). -/
def resourceNetworkingNetworkV2UpdateBasicOpts (d : ResourceData) : UpdateOpts :=
  let sch := resourceNetworkingNetworkV2.Schema
  let updateOpts : UpdateOpts := {}
  let updateOpts :=
    if d.HasChange sch "name" then
      { updateOpts with Name := some (asString (d.Get sch "name")) }
    else updateOpts
  let updateOpts :=
    if d.HasChange sch "description" then
      { updateOpts with Description := some (asString (d.Get sch "description")) }
    else updateOpts
  let updateOpts :=
    if d.HasChange sch "admin_state_up" then
      { updateOpts with AdminStateUp := some (asBool (d.Get sch "admin_state_up")) }
    else updateOpts
  let updateOpts :=
    if d.HasChange sch "shared" then
      { updateOpts with Shared := some (asBool (d.Get sch "shared")) }
    else updateOpts
  updateOpts

/-- The final update options that Update assembles around the basic ones
(from `Save basic updateOpts into finalUpdateOpts` to the segments
extension). -/
def resourceNetworkingNetworkV2UpdateFinalOpts {Config : Type} (h : Helpers Config)
    (d : ResourceData) (updateOpts : UpdateOpts) : UpdateOptsBuilder :=
  let sch := resourceNetworkingNetworkV2.Schema
  -- save basic updateOpts into finalUpdateOpts
  let finalUpdateOpts : UpdateOptsBuilder := .base updateOpts
  -- populate extensions options
  let finalUpdateOpts :=
    if d.HasChange sch "external" then
      .externalExt finalUpdateOpts (some (asBool (d.Get sch "external")))
    else finalUpdateOpts
  -- populate port security options
  let finalUpdateOpts :=
    if d.HasChange sch "port_security_enabled" then
      .portsecurityExt finalUpdateOpts (some (asBool (d.Get sch "port_security_enabled")))
    else finalUpdateOpts
  let finalUpdateOpts :=
    if d.HasChange sch "mtu" then
      .mtuExt finalUpdateOpts (asInt (d.Get sch "mtu"))
    else finalUpdateOpts
  let finalUpdateOpts :=
    if d.HasChange sch "dns_domain" then
      .dnsExt finalUpdateOpts (some (asString (d.Get sch "dns_domain")))
    else finalUpdateOpts
  let finalUpdateOpts :=
    if d.HasChange sch "qos_policy_id" then
      .policiesExt finalUpdateOpts (some (asString (d.Get sch "qos_policy_id")))
    else finalUpdateOpts
  let finalUpdateOpts :=
    if d.HasChange sch "segments" then
      .providerExt finalUpdateOpts
        (some (h.expandNetworkingNetworkSegmentsV2 (asSegments (d.Get sch "segments"))))
    else finalUpdateOpts
  finalUpdateOpts

/-- The function `resourceNetworkingNetworkV2Update`.  The helper
`networkingV2UpdateAttributesTags` lives in another file of the package and
is taken as given. -/
def resourceNetworkingNetworkV2Update {Config : Type} (h : Helpers Config)
    (networkingV2UpdateAttributesTags : ResourceData → List String)
    (d : ResourceData) (config : Config) (env : NetworkUpdateEnv) : Outcome :=
  let sch := resourceNetworkingNetworkV2.Schema
  let r : Run := { d := d, events := [] }
  let r := r.call (.NetworkingV2Client (h.GetRegion d config))
  match env.NetworkingV2Client with
  | .error err =>
    ⟨["Error creating OpenStack networking client: " ++ err.Error], r⟩
  | .ok _ =>
    -- populate basic updateOpts
    let updateOpts := resourceNetworkingNetworkV2UpdateBasicOpts d
    let finish : Run → Outcome := fun r =>
      let finalUpdateOpts := resourceNetworkingNetworkV2UpdateFinalOpts h d updateOpts
      let r := r.call (.NetworksUpdate d.id finalUpdateOpts)
      match env.NetworksUpdate with
      | .error err =>
        ⟨["Error updating viettelidc_networking_network_v2 " ++ d.id ++ ": " ++ err.Error], r⟩
      | .ok _ =>
        (resourceNetworkingNetworkV2Read h r.d config env.Read).after r.events
    -- change tags if needed
    if d.HasChange sch "tags" then
      let tags := networkingV2UpdateAttributesTags d
      let r := r.call (.TagsReplaceAll d.id tags)
      match env.TagsReplaceAll with
      | .error err =>
        ⟨["Error setting tags on viettelidc_networking_network_v2 " ++ d.id ++ ": " ++
          err.Error], r⟩
      | .ok _ => finish r
    else finish r

/-- The function `resourceNetworkingNetworkV2Delete`. -/
def resourceNetworkingNetworkV2Delete {Config : Type} (h : Helpers Config)
    (d : ResourceData) (config : Config) (env : NetworkDeleteEnv) : Outcome :=
  let r : Run := { d := d, events := [] }
  let r := r.call (.NetworkingV2Client (h.GetRegion d config))
  match env.NetworkingV2Client with
  | .error err =>
    ⟨["Error creating OpenStack networking client: " ++ err.Error], r⟩
  | .ok _ =>
    let r := r.call (.NetworksDelete d.id)
    match env.NetworksDelete with
    | some err =>
      let res := h.CheckDeleted r.d err "Error deleting viettelidc_networking_network_v2"
      ⟨diagFromErr res.2, { r with d := res.1 }⟩
    | none =>
      let stateConf : StateChangeConf :=
        { Pending := ["ACTIVE"],
          Target := ["DELETED"],
          refreshID := d.id,
          Timeout := .TimeoutDelete,
          Delay := 5,
          MinTimeout := 3 }
      let r := r.call (.WaitForStateContext stateConf)
      match env.WaitForStateContext with
      | some err =>
        ⟨["Error waiting for viettelidc_networking_network_v2 " ++ d.id ++
          " to Delete:  " ++ err.Error], r⟩
      | none =>
        let r := r.SetId ""
        ⟨[], r⟩

/-- The basic `UpdateOpts` at the bottom of an update-options chain. -/
def UpdateOptsBuilder.basic : UpdateOptsBuilder → UpdateOpts
  | .base o => o
  | .externalExt i _ => i.basic
  | .portsecurityExt i _ => i.basic
  | .mtuExt i _ => i.basic
  | .dnsExt i _ => i.basic
  | .policiesExt i _ => i.basic
  | .providerExt i _ => i.basic

/-- Whether an event is a call of `networks.Update`. -/
def Event.isNetworksUpdate : Event → Bool
  | .NetworksUpdate _ _ => true
  | _ => false

/-- The `External` that a create-options chain carries, if it has the
external extension (outermost first). -/
def CreateOptsBuilder.External? : CreateOptsBuilder → Option (Option Bool)
  | .base _ => none
  | .externalExt _ e => some e
  | .providerExt i _ => i.External?
  | .vlantransparentExt i _ => i.External?
  | .portsecurityExt i _ => i.External?
  | .mtuExt i _ => i.External?
  | .dnsExt i _ => i.External?
  | .policiesExt i _ => i.External?

/-- The `VLANTransparent` that a create-options chain carries, if it has the
VLAN-transparent extension. -/
def CreateOptsBuilder.VLANTransparent? : CreateOptsBuilder → Option (Option Bool)
  | .base _ => none
  | .vlantransparentExt _ e => some e
  | .providerExt i _ => i.VLANTransparent?
  | .externalExt i _ => i.VLANTransparent?
  | .portsecurityExt i _ => i.VLANTransparent?
  | .mtuExt i _ => i.VLANTransparent?
  | .dnsExt i _ => i.VLANTransparent?
  | .policiesExt i _ => i.VLANTransparent?

/-- The `PortSecurityEnabled` that a create-options chain carries, if it has
the port-security extension. -/
def CreateOptsBuilder.PortSecurityEnabled? : CreateOptsBuilder → Option (Option Bool)
  | .base _ => none
  | .portsecurityExt _ e => some e
  | .providerExt i _ => i.PortSecurityEnabled?
  | .externalExt i _ => i.PortSecurityEnabled?
  | .vlantransparentExt i _ => i.PortSecurityEnabled?
  | .mtuExt i _ => i.PortSecurityEnabled?
  | .dnsExt i _ => i.PortSecurityEnabled?
  | .policiesExt i _ => i.PortSecurityEnabled?

/-- The basic `NetworkCreateOpts` at the bottom of a create-options chain. -/
def CreateOptsBuilder.basic : CreateOptsBuilder → NetworkCreateOpts
  | .base o => o
  | .providerExt i _ => i.basic
  | .externalExt i _ => i.basic
  | .vlantransparentExt i _ => i.basic
  | .portsecurityExt i _ => i.basic
  | .mtuExt i _ => i.basic
  | .dnsExt i _ => i.basic
  | .policiesExt i _ => i.basic

/-- The `MTU` that a create-options chain carries, if it has the MTU
extension. -/
def CreateOptsBuilder.MTU? : CreateOptsBuilder → Option Int
  | .base _ => none
  | .mtuExt _ m => some m
  | .providerExt i _ => i.MTU?
  | .externalExt i _ => i.MTU?
  | .vlantransparentExt i _ => i.MTU?
  | .portsecurityExt i _ => i.MTU?
  | .dnsExt i _ => i.MTU?
  | .policiesExt i _ => i.MTU?

/-- The `DNSDomain` that a create-options chain carries, if it has the DNS
extension. -/
def CreateOptsBuilder.DNSDomain? : CreateOptsBuilder → Option String
  | .base _ => none
  | .dnsExt _ x => some x
  | .providerExt i _ => i.DNSDomain?
  | .externalExt i _ => i.DNSDomain?
  | .vlantransparentExt i _ => i.DNSDomain?
  | .portsecurityExt i _ => i.DNSDomain?
  | .mtuExt i _ => i.DNSDomain?
  | .policiesExt i _ => i.DNSDomain?

/-- The `QoSPolicyID` that a create-options chain carries, if it has the QoS
policy extension. -/
def CreateOptsBuilder.QoSPolicyID? : CreateOptsBuilder → Option String
  | .base _ => none
  | .policiesExt _ x => some x
  | .providerExt i _ => i.QoSPolicyID?
  | .externalExt i _ => i.QoSPolicyID?
  | .vlantransparentExt i _ => i.QoSPolicyID?
  | .portsecurityExt i _ => i.QoSPolicyID?
  | .mtuExt i _ => i.QoSPolicyID?
  | .dnsExt i _ => i.QoSPolicyID?

/-! ## Splitting a resource ID -/

/-- Split a text at the first occurrence of `c`: the part before it and the
part after it, or nothing when `c` does not occur. -/
def splitAtFirst (c : Char) : List Char → Option (List Char × List Char)
  | [] => none
  | x :: xs =>
    if x = c then some ([], xs)
    else (splitAtFirst c xs).map (fun p => (x :: p.1, p.2))

/-- Split an ID at its first "/". -/
def splitAtFirstSlash (id : String) : Option (String × String) :=
  (splitAtFirst '/' id.data).map (fun p => (String.mk p.1, String.mk p.2))

/-! ## Sample inputs

A sample instantiation of the helper functions and sample resource data, on
which the handlers are evaluated. -/

/-- Sample helpers: the region is fixed, the most recent snapshot is the
last of the list, the attach mode is one of the empty text, `ro` and `rw`,
an ID is parsed by splitting it at its first "/", a 404 error clears the
ID, and the remaining helpers read or write the attribute they are named
after. -/
def exampleHelpers : Helpers Unit where
  GetRegion := fun _ _ => "RegionOne"
  dataSourceBlockStorageV3MostRecentSnapshot := fun l =>
    l.getLastD { ID := "", Name := "", Description := "", VolumeID := "", Status := "",
                 Size := 0, Metadata := [] }
  expandBlockStorageV2AttachMode := fun v =>
    if v = "" ∨ v = "ro" ∨ v = "rw" then .ok v
    else .error (.other "Invalid attach_mode specified")
  blockStorageVolumeAttachV2ParseID := fun id =>
    match splitAtFirstSlash id with
    | some p => .ok p
    | none => .error (.other "Unable to determine volume attachment ID")
  CheckDeleted := fun d err msg =>
    match err with
    | .ErrDefault404 _ => (d.SetId "", none)
    | .other m => (d, some (.other (msg ++ " " ++ d.id ++ ": " ++ m)))
  MapValueSpecs := fun d =>
    match d.Get resourceNetworkingNetworkV2.Schema "value_specs" with
    | some (.map m) => m
    | _ => []
  expandToStringSlice := fun l => l
  expandNetworkingNetworkSegmentsV2 := fun l => l
  networkingV2AttributesTags := fun d =>
    asStringSet (d.Get resourceNetworkingNetworkV2.Schema "tags")
  flattenNetworkingNetworkSegmentsV2 := fun n => n.Segments
  networkingV2ReadAttributesTags := fun d tags =>
    d.SetIgnoreErr resourceNetworkingNetworkV2.Schema "all_tags" (.set tags)

/-- A snapshot data source that asks for the snapshots named `backup`. -/
def exampleSnapshotData : ResourceData :=
  { id := "", state := [], config := [("name", .string "backup")], computed := [],
    written := [] }

/-- One snapshot named `backup`. -/
def exampleSnapshot : Snapshot :=
  { ID := "snap-1", Name := "backup", Description := "nightly", VolumeID := "vol-1",
    Status := "available", Size := 8, Metadata := [("owner", "ops")] }

/-- A world in which the snapshot query returns exactly `exampleSnapshot`. -/
def exampleSnapshotEnv : SnapshotReadEnv :=
  { BlockStorageV3Client := .ok (), AllPages := .ok (),
    ExtractSnapshots := .ok [exampleSnapshot] }

/-- A volume attachment as configured: volume `vol-1` on host `node-1`, read
and write, with a world-wide node name and one world-wide port name. -/
def exampleAttachData : ResourceData :=
  { id := "", state := [],
    config := [("volume_id", .string "vol-1"), ("host_name", .string "node-1"),
               ("attach_mode", .string "rw"),
               ("wwnn", .string "20:00:00:25:b5:00:00:0f"),
               ("wwpn", .list ["21:00:00:24:ff:00:00:01"])],
    computed := [], written := [] }

/-- The same attachment with an attach mode that the sample
`expandBlockStorageV2AttachMode` does not know. -/
def exampleAttachDataBadMode : ResourceData :=
  { exampleAttachData with
    config := [("volume_id", .string "vol-1"), ("host_name", .string "node-1"),
               ("attach_mode", .string "RO")] }

/-- The volume `vol-1` once attached to `node-1`. -/
def exampleVolume : Volume :=
  { ID := "vol-1", Status := "in-use",
    Attachments := [{ AttachmentID := "att-1", HostName := "node-1", VolumeID := "vol-1" }] }

/-- A world in which every call of the attachment's Create succeeds. -/
def exampleAttachEnv : VolumeAttachCreateEnv :=
  { BlockStorageV2Client := .ok (),
    InitializeConnection := .ok
      { data := some [("target_iqn", .str "iqn.2010-10.org.openstack:vol-1"),
                      ("target_lun", .other)],
        driver_volume_type := some (.str "iscsi") },
    Attach := none,
    WaitForStateContext := none,
    VolumesGet := .ok exampleVolume,
    Read := { BlockStorageV2Client := .ok (), VolumesGet := .ok exampleVolume } }

/-- A network as configured, with every boolean attribute spelled out:
`external`, `transparent_vlan`, `port_security_enabled` and `shared` are
set to false, `admin_state_up` to true. -/
def exampleNetworkData : ResourceData :=
  { id := "", state := [],
    config := [("name", .string "net-1"), ("admin_state_up", .bool true),
               ("shared", .bool false), ("external", .bool false),
               ("transparent_vlan", .bool false), ("port_security_enabled", .bool false),
               ("mtu", .int 1450), ("dns_domain", .string "example.org.")],
    computed := [], written := [] }

/-- The network `net-1` as OpenStack reports it. -/
def exampleNetwork : NetworkExtended :=
  { ID := "net-1", Name := "net-1", AdminStateUp := true, Status := "ACTIVE",
    TenantID := "tenant-1", MTU := 1450, DNSDomain := "example.org.",
    AvailabilityZoneHints := ["nova"], Tags := ["blue"],
    NetworkType := "vxlan", SegmentationID := "42" }

/-- Whether the schema declares `k` with the shape of `v`, so that
`d.Set(k, v)` succeeds. -/
def conformsAt (sch : SchemaMap) (k : String) (v : Value) : Bool :=
  match sch.lookup k with
  | some s => v.conforms s
  | none => false

/-- A network that exists and whose configuration asks for no change: every
value comes from the prior state. -/
def exampleNetworkState : ResourceData :=
  { id := "net-1",
    state := [("name", .string "net-1"), ("admin_state_up", .bool true),
              ("shared", .bool false), ("mtu", .int 1450), ("tags", .set ["blue"])],
    config := [], computed := [], written := [] }

/-- A world in which every call of the network's Update succeeds. -/
def exampleNetworkUpdateEnv : NetworkUpdateEnv :=
  { NetworkingV2Client := .ok (), TagsReplaceAll := .ok ["blue"],
    NetworksUpdate := .ok { ID := "net-1" },
    Read := { NetworkingV2Client := .ok (), NetworksGet := .ok exampleNetwork } }

/-- A world in which every call of the network's Create succeeds. -/
def exampleNetworkCreateEnv : NetworkCreateEnv :=
  { NetworkingV2Client := .ok (), NetworksCreate := .ok { ID := "net-1" },
    WaitForStateContext := none, TagsReplaceAll := .ok [],
    Read := { NetworkingV2Client := .ok (), NetworksGet := .ok exampleNetwork } }

/-- A world in which the network is gone: `networks.Get` fails with a 404
error. -/
def exampleNetworkGoneEnv : NetworkReadEnv :=
  { NetworkingV2Client := .ok (),
    NetworksGet := .error (.ErrDefault404 "Resource not found") }

/-- A world in which every call of the network's Delete succeeds. -/
def exampleNetworkDeleteEnv : NetworkDeleteEnv :=
  { NetworkingV2Client := .ok (), NetworksDelete := none, WaitForStateContext := none }

/-- The sample attachment once created, with the ID `vol-1/att-1`. -/
def exampleAttachState : ResourceData :=
  { exampleAttachData with id := "vol-1/att-1" }

/-- A world in which every call of the attachment's Delete succeeds. -/
def exampleAttachDeleteEnv : VolumeAttachDeleteEnv :=
  { BlockStorageV2Client := .ok (), TerminateConnection := none, Detach := none,
    WaitForStateContext := none }

/-! ## Acceptance checks: `resource_openstack_networking_trunk_v2_test.go`,
`resource_openstack_vpnaas_site_connection_test.go` -/

/-- The fields of `terraform.InstanceState` that the acceptance checks read. -/
structure InstanceState where
  ID : String
  Attributes : List (String × String) := []
  deriving DecidableEq, Repr

/-- The fields of `terraform.ResourceState` that the acceptance checks read. -/
structure ResourceState where
  Type_ : String
  Primary : InstanceState
  deriving DecidableEq, Repr

/-- The resources of the root module of a `terraform.State`,
`s.RootModule().Resources`: a map from resource name to resource state,
listed in the order in which a `range` over it visits them. -/
abbrev Resources := List (String × ResourceState)

/-- The field of `ports.Port` that the trunk check reads. -/
structure Port where
  ID : String
  deriving DecidableEq, Repr

/-- A `trunks.Subport`. -/
structure Subport where
  PortID : String
  SegmentationType : String := ""
  SegmentationID : Int := 0
  deriving DecidableEq, Repr

/-- The fields of `trunks.Trunk` that the trunk check reads. -/
structure Trunk where
  ID : String
  Name : String := ""
  Subports : List Subport := []
  deriving DecidableEq, Repr

/-- The results of the fallible steps of the trunk check: client creation and
`trunks.Get(...).Extract()`. -/
structure TrunkExistsEnv where
  NetworkingV2Client : Except GoError Unit
  TrunksGet : Except GoError Trunk

/-- The loop of the trunk check that fills `subportResources`: for the i-th
expected subport the i-th resource name is looked up in the state and its ID
is added; a name that the state does not have ends the check with an error.
The caller has made sure that there are as many names as subports. -/
def collectSubportResources (s : Resources) :
    List String → List Port → Except GoError (List String)
  | name :: names, subport :: subports =>
    match s.lookup name with
    | some subportResource =>
      match collectSubportResources s names subports with
      | .ok subportResources => .ok (subportResource.Primary.ID :: subportResources)
      | .error err => .error err
    | none => .error (.other ("Subport not found: " ++ subport.ID))
  | _, _ => .ok []

/-- The check that `testAccCheckNetworkingV2TrunkExists(n, subportResourceNames,
trunk, subports...)` returns, applied to a state: the error, and the trunk
that a successful check stores in `*trunk`. -/
def testAccCheckNetworkingV2TrunkExists (n : String) (subportResourceNames : List String)
    (subports : List Port) (s : Resources) (env : TrunkExistsEnv) :
    Option GoError × Option Trunk :=
  match s.lookup n with
  | none => (some (.other ("Trunk not found: " ++ n)), none)
  | some rs =>
    if rs.Primary.ID = "" then (some (.other "Trunk ID is not set"), none)
    else
      let subportResources : Except GoError (List String) :=
        if subports.length > 0 then
          if subportResourceNames.length ≠ subports.length then
            .error (.other "Amount of subport resource names and subports do not match")
          else collectSubportResources s subportResourceNames subports
        else .ok []
      match subportResources with
      | .error err => (some err, none)
      | .ok subportResources =>
        match env.NetworkingV2Client with
        | .error err =>
          (some (.other ("Error creating OpenStack networking client: " ++ err.Error)), none)
        | .ok _ =>
          match env.TrunksGet with
          | .error err => (some err, none)
          | .ok found =>
            if found.Subports.length ≠ subports.length then
              (some (.other ("The amount of retrieved trunk subports and trunk " ++
                "subports to check does not match")), none)
            else
              let missing : Option Subport :=
                if subports.length > 0 then
                  found.Subports.find? (fun subport =>
                    !decide (subport.PortID ∈ subportResources))
                else none
              match missing with
              | some subport =>
                (some (.other ("Trunk Subport not found: " ++ subport.PortID)), none)
              | none =>
                if found.ID ≠ rs.Primary.ID then (some (.other "Trunk not found"), none)
                else if found.Name ≠ (rs.Primary.Attributes.lookup "name").getD "" then
                  (some (.other "Trunk name does not match"), none)
                else (none, some found)

/-- The field of `siteconnections.Connection` that matters to the destroy
check: it only tests whether `Get` returns one. -/
structure Connection where
  ID : String
  deriving DecidableEq, Repr

/-- The results of the fallible steps of the destroy check: client creation,
and `siteconnections.Get(...).Extract()` for a given ID. -/
structure SiteConnectionDestroyEnv where
  NetworkingV2Client : Except GoError Unit
  SiteConnectionsGet : String → Except GoError Connection

/-- The loop of `testAccCheckSiteConnectionV2Destroy` over the resources of the
state: the error it ends with, and the IDs for which it called
`siteconnections.Get`, in order. -/
def testAccCheckSiteConnectionV2DestroyLoop (get : String → Except GoError Connection) :
    Resources → Option GoError × List String
  | [] => (none, [])
  | (_, rs) :: rest =>
    if rs.Type_ ≠ "viettelidc_vpnaas_site_connection_v2" then
      testAccCheckSiteConnectionV2DestroyLoop get rest
    else
      match get rs.Primary.ID with
      | .ok _ =>
        (some (.other ("Site connection (" ++ rs.Primary.ID ++ ") still exists")),
          [rs.Primary.ID])
      | .error (.ErrDefault404 _) =>
        let res := testAccCheckSiteConnectionV2DestroyLoop get rest
        (res.1, rs.Primary.ID :: res.2)
      | .error (.other m) => (some (.other m), [rs.Primary.ID])

/-- The function `testAccCheckSiteConnectionV2Destroy`. -/
def testAccCheckSiteConnectionV2Destroy (s : Resources) (env : SiteConnectionDestroyEnv) :
    Option GoError × List String :=
  match env.NetworkingV2Client with
  | .error err =>
    (some (.other ("Error creating OpenStack networking client: " ++ err.Error)), [])
  | .ok _ => testAccCheckSiteConnectionV2DestroyLoop env.SiteConnectionsGet s

/-- A state with a trunk, two subports and a VPN site connection. -/
def exampleResources : Resources :=
  [("viettelidc_networking_trunk_v2.trunk_1",
     { Type_ := "viettelidc_networking_trunk_v2",
       Primary := { ID := "trunk-1", Attributes := [("name", "trunk_1")] } }),
   ("viettelidc_networking_port_v2.subport_1",
     { Type_ := "viettelidc_networking_port_v2", Primary := { ID := "port-1" } }),
   ("viettelidc_networking_port_v2.subport_2",
     { Type_ := "viettelidc_networking_port_v2", Primary := { ID := "port-2" } }),
   ("viettelidc_vpnaas_site_connection_v2.conn_1",
     { Type_ := "viettelidc_vpnaas_site_connection_v2", Primary := { ID := "conn-1" } })]

/-- The trunk `trunk-1` as OpenStack reports it, with its two subports in the
other order. -/
def exampleTrunk : Trunk :=
  { ID := "trunk-1", Name := "trunk_1",
    Subports := [{ PortID := "port-2", SegmentationType := "vlan", SegmentationID := 2 },
                 { PortID := "port-1", SegmentationType := "vlan", SegmentationID := 1 }] }

/-- A world in which the trunk check finds `exampleTrunk`. -/
def exampleTrunkEnv : TrunkExistsEnv :=
  { NetworkingV2Client := .ok (), TrunksGet := .ok exampleTrunk }

/-- A world in which the site connection `conn-1` is gone. -/
def exampleDestroyedEnv : SiteConnectionDestroyEnv :=
  { NetworkingV2Client := .ok (),
    SiteConnectionsGet := fun id =>
      if id = "conn-1" then .error (.ErrDefault404 "Resource not found") else .ok { ID := id } }

/-- A world in which the site connection `conn-1` still exists. -/
def exampleNotDestroyedEnv : SiteConnectionDestroyEnv :=
  { NetworkingV2Client := .ok (), SiteConnectionsGet := fun id => .ok { ID := id } }

/-! ## Theorems: the plugin SDK model -/

theorem readLevel_cons_ne (s : Schema) (k k' : String) (v : Value)
    (l : List (String × Value)) (hne : k' ≠ k) :
    readLevel s ((k, v) :: l) k' = readLevel s l k' := by
  have hb : (k' == k) = false := by simpa using hne
  simp [readLevel, List.lookup, hb]

theorem readLevel_cons_same (s : Schema) (k : String) (v : Value)
    (l : List (String × Value)) (hc : v.conforms s = true) :
    readLevel s ((k, v) :: l) k = some v := by
  simp [readLevel, List.lookup, hc]

/-- A write that the caller does not check leaves every other attribute as it
was. -/
theorem Get_SetIgnoreErr_ne (sch : SchemaMap) (d : ResourceData) (k k' : String)
    (v : Value) (hne : k' ≠ k) :
    (d.SetIgnoreErr sch k v).Get sch k' = d.Get sch k' := by
  unfold ResourceData.SetIgnoreErr ResourceData.Set
  cases hk : sch.lookup k with
  | none => rfl
  | some s =>
    by_cases hc : v.conforms s = true
    · simp only [hc, if_true]
      unfold ResourceData.Get ResourceData.readField
      cases hk' : sch.lookup k' with
      | none => rfl
      | some s' => simp only [readLevel_cons_ne s' k k' v d.written hne]
    · simp only [hc]
      rfl

/-- A write of a value of the declared shape is what `Get` then returns. -/
theorem Get_SetIgnoreErr_same (sch : SchemaMap) (d : ResourceData) (k : String)
    (v : Value) (s : Schema) (hk : sch.lookup k = some s) (hc : v.conforms s = true) :
    (d.SetIgnoreErr sch k v).Get sch k = some v := by
  unfold ResourceData.SetIgnoreErr ResourceData.Set
  simp only [hk, hc, if_true]
  unfold ResourceData.Get ResourceData.readField
  simp only [hk, readLevel_cons_same s k v d.written hc]

/-- A write never touches the ID. -/
theorem SetIgnoreErr_id (sch : SchemaMap) (d : ResourceData) (k : String) (v : Value) :
    (d.SetIgnoreErr sch k v).id = d.id := by
  unfold ResourceData.SetIgnoreErr ResourceData.Set
  cases hk : sch.lookup k with
  | none => rfl
  | some s =>
    by_cases hc : v.conforms s = true
    · simp only [hc, if_true]
    · simp only [hc]
      rfl

/-- A write of a value of the declared shape, by key. -/
theorem Get_SetIgnoreErr_conforms (sch : SchemaMap) (d : ResourceData) (k : String)
    (v : Value) (hc : conformsAt sch k v = true) :
    (d.SetIgnoreErr sch k v).Get sch k = some v := by
  unfold conformsAt at hc
  cases hk : sch.lookup k with
  | none => simp [hk] at hc
  | some s =>
    rw [hk] at hc
    exact Get_SetIgnoreErr_same sch d k v s hk hc

/-- A write of a value of the declared shape puts it first in the set writer. -/
theorem SetIgnoreErr_conforms_eq (sch : SchemaMap) (d : ResourceData) (k : String)
    (v : Value) (hc : conformsAt sch k v = true) :
    d.SetIgnoreErr sch k v = { d with written := (k, v) :: d.written } := by
  unfold conformsAt at hc
  unfold ResourceData.SetIgnoreErr ResourceData.Set
  cases hk : sch.lookup k with
  | none => simp [hk] at hc
  | some s =>
    rw [hk] at hc
    have hc' : v.conforms s = true := hc
    simp only [hc', if_true]

@[simp] theorem Run.call_events (r : Run) (e : Event) :
    (r.call e).events = r.events ++ [e] := rfl

@[simp] theorem Run.call_d (r : Run) (e : Event) : (r.call e).d = r.d := rfl

@[simp] theorem Run.Set_events (sch : SchemaMap) (r : Run) (k : String) (v : Value) :
    (r.Set sch k v).events = r.events := rfl

@[simp] theorem Run.Set_d (sch : SchemaMap) (r : Run) (k : String) (v : Value) :
    (r.Set sch k v).d = r.d.SetIgnoreErr sch k v := rfl

@[simp] theorem Run.SetIface_events (sch : SchemaMap) (r : Run) (k : String) (v : Iface) :
    (r.SetIface sch k v).events = r.events := by
  cases v <;> rfl

@[simp] theorem Run.SetIface_d_id (sch : SchemaMap) (r : Run) (k : String) (v : Iface) :
    (r.SetIface sch k v).d.id = r.d.id := by
  cases v <;> simp [Run.SetIface, SetIgnoreErr_id]

@[simp] theorem Run.SetId_events (r : Run) (id : String) :
    (r.SetId id).events = r.events ++ [.SetId id] := rfl

@[simp] theorem Run.SetId_d_id (r : Run) (id : String) : (r.SetId id).d.id = id := rfl

@[simp] theorem Outcome.after_events (ev : List Event) (out : Outcome) :
    (out.after ev).run.events = ev ++ out.run.events := rfl

@[simp] theorem Outcome.after_d (ev : List Event) (out : Outcome) :
    (out.after ev).run.d = out.run.d := rfl

@[simp] theorem Outcome.after_diags (ev : List Event) (out : Outcome) :
    (out.after ev).diags = out.diags := rfl

/-! ## Theorems: the snapshot data source -/

/-- What `dataSourceBlockStorageSnapshotV3Attributes` leaves in the resource
data: the ID and the six attributes of the snapshot, and nothing under
`region` or `most_recent`. -/
theorem dataSourceBlockStorageSnapshotV3Attributes_spec (r : Run) (snapshot : Snapshot) :
    let r' := dataSourceBlockStorageSnapshotV3Attributes r snapshot
    let sch := dataSourceBlockStorageSnapshotV3.Schema
    r'.d.id = snapshot.ID ∧
    r'.d.Get sch "name" = some (.string snapshot.Name) ∧
    r'.d.Get sch "description" = some (.string snapshot.Description) ∧
    r'.d.Get sch "size" = some (.int snapshot.Size) ∧
    r'.d.Get sch "status" = some (.string snapshot.Status) ∧
    r'.d.Get sch "volume_id" = some (.string snapshot.VolumeID) ∧
    r'.d.Get sch "metadata" = some (.map snapshot.Metadata) ∧
    r'.d.written.lookup "region" = r.d.written.lookup "region" ∧
    r'.d.written.lookup "most_recent" = r.d.written.lookup "most_recent" ∧
    r'.d.Get sch "region" = r.d.Get sch "region" ∧
    r'.d.Get sch "most_recent" = r.d.Get sch "most_recent" := by
  simp [dataSourceBlockStorageSnapshotV3Attributes, dataSourceBlockStorageSnapshotV3,
    Run.Set, Run.SetId, ResourceData.SetIgnoreErr, ResourceData.Set, ResourceData.SetId,
    ResourceData.Get, ResourceData.readField, readLevel, Value.conforms, List.lookup]

/-- Claim C1. When client creation, listing and extraction succeed, the Read of
the snapshot data source returns an error exactly when the list of
snapshots is empty, or has more than one element while `most_recent` is
false; and when it returns an error the resource data is what it was (the ID
in particular) and `SetId` was never called. -/
theorem dataSourceBlockStorageSnapshotV3Read_error_iff {Config : Type}
    (h : Helpers Config) (d : ResourceData) (config : Config)
    (allSnapshots : List Snapshot) :
    let out := dataSourceBlockStorageSnapshotV3Read h d config
      { BlockStorageV3Client := .ok (), AllPages := .ok (),
        ExtractSnapshots := .ok allSnapshots }
    (out.diags ≠ [] ↔
      (allSnapshots = [] ∨ (1 < allSnapshots.length ∧
        asBool (d.Get dataSourceBlockStorageSnapshotV3.Schema "most_recent") = false))) ∧
    (out.diags ≠ [] →
      out.run.d = d ∧ out.run.d.id = d.id ∧ ∀ id, Event.SetId id ∉ out.run.events) := by
  intro out
  simp only [out, dataSourceBlockStorageSnapshotV3Read]
  split
  · rename_i hlen
    have h0 : allSnapshots = [] := by
      cases allSnapshots with
      | nil => rfl
      | cons a t => simp at hlen
    subst h0
    simp [Run.call]
  · rename_i hlen
    have hne : allSnapshots ≠ [] := by
      intro h0
      subst h0
      simp at hlen
    split
    · rename_i hgt
      cases hr : asBool (d.Get dataSourceBlockStorageSnapshotV3.Schema "most_recent")
      · simp [hne, hgt, Run.call]
      · simp [hne, hgt]
    · rename_i hgt
      simp [hne, hgt]

/-- Claim C2. Whenever the Read of the snapshot data source returns no error,
the snapshots were extracted, the selected snapshot is the sole element of
the list, or the helper's most recent one when the list has more than one
element and `most_recent` is true, and the ID, `name`, `description`,
`size`, `status`, `volume_id` and `metadata` of the data source are those of
the selected snapshot, while `region` and `most_recent` are not written. -/
theorem dataSourceBlockStorageSnapshotV3Read_success {Config : Type}
    (h : Helpers Config) (d : ResourceData) (config : Config) (env : SnapshotReadEnv)
    (hok : (dataSourceBlockStorageSnapshotV3Read h d config env).diags = []) :
    let out := dataSourceBlockStorageSnapshotV3Read h d config env
    let sch := dataSourceBlockStorageSnapshotV3.Schema
    ∃ allSnapshots snapshot,
      env.ExtractSnapshots = .ok allSnapshots ∧
      (allSnapshots = [snapshot] ∨
        (1 < allSnapshots.length ∧ asBool (d.Get sch "most_recent") = true ∧
          snapshot = h.dataSourceBlockStorageV3MostRecentSnapshot allSnapshots)) ∧
      out.run.d.id = snapshot.ID ∧
      out.run.d.Get sch "name" = some (.string snapshot.Name) ∧
      out.run.d.Get sch "description" = some (.string snapshot.Description) ∧
      out.run.d.Get sch "size" = some (.int snapshot.Size) ∧
      out.run.d.Get sch "status" = some (.string snapshot.Status) ∧
      out.run.d.Get sch "volume_id" = some (.string snapshot.VolumeID) ∧
      out.run.d.Get sch "metadata" = some (.map snapshot.Metadata) ∧
      out.run.d.written.lookup "region" = d.written.lookup "region" ∧
      out.run.d.written.lookup "most_recent" = d.written.lookup "most_recent" ∧
      out.run.d.Get sch "region" = d.Get sch "region" ∧
      out.run.d.Get sch "most_recent" = d.Get sch "most_recent" := by
  intro out sch
  obtain ⟨c, p, e⟩ := env
  simp only [out, sch] at *
  unfold dataSourceBlockStorageSnapshotV3Read at hok ⊢
  cases c with
  | error err => simp at hok
  | ok _ =>
    cases p with
    | error err => simp at hok
    | ok _ =>
      cases e with
      | error err => simp at hok
      | ok allSnapshots =>
        simp only at hok ⊢
        split at hok
        · simp at hok
        · rename_i hlen
          split at hok
          · rename_i hgt
            split at hok
            · rename_i hrec
              refine ⟨allSnapshots, h.dataSourceBlockStorageV3MostRecentSnapshot allSnapshots,
                rfl, Or.inr ⟨hgt, hrec, rfl⟩, ?_⟩
              simp only [hlen, hgt, hrec, dite_false, ite_true]
              exact dataSourceBlockStorageSnapshotV3Attributes_spec _ _
            · simp at hok
          · rename_i hgt
            match allSnapshots, hlen, hgt with
            | [s], _, _ =>
              refine ⟨[s], s, rfl, Or.inl rfl, ?_⟩
              simp only [List.length_singleton, lt_self_iff_false, dite_false, gt_iff_lt,
                ite_false]
              exact dataSourceBlockStorageSnapshotV3Attributes_spec _ _
            | [], hlen, _ => simp at hlen
            | _ :: _ :: _, _, hgt => simp at hgt

/-- A successful Read on the sample query: the one snapshot found gives the
data source its ID and its name. -/
theorem dataSourceBlockStorageSnapshotV3Read_success_witness :
    (dataSourceBlockStorageSnapshotV3Read exampleHelpers exampleSnapshotData ()
      exampleSnapshotEnv).diags = [] ∧
    ∃ snapshot,
      exampleSnapshotEnv.ExtractSnapshots = .ok [snapshot] ∧
      (dataSourceBlockStorageSnapshotV3Read exampleHelpers exampleSnapshotData ()
        exampleSnapshotEnv).run.d.id = snapshot.ID ∧
      (dataSourceBlockStorageSnapshotV3Read exampleHelpers exampleSnapshotData ()
        exampleSnapshotEnv).run.d.Get dataSourceBlockStorageSnapshotV3.Schema "name" =
          some (.string snapshot.Name) := by
  refine ⟨by decide, ?_⟩
  obtain ⟨all, s, hext, hsel, hid, hname, _⟩ :=
    dataSourceBlockStorageSnapshotV3Read_success exampleHelpers exampleSnapshotData ()
      exampleSnapshotEnv (by decide)
  rcases hsel with hone | ⟨hlen, _, _⟩
  · subst hone
    exact ⟨s, hext, hid, hname⟩
  · exfalso
    have hall : all = [exampleSnapshot] := by
      have := hext
      simp only [exampleSnapshotEnv] at this
      cases this
      rfl
    subst hall
    simp at hlen

/-! ## Theorems: the volume attachment -/

theorem splitAtFirst_append (c : Char) (v a : List Char) (hv : c ∉ v) :
    splitAtFirst c (v ++ c :: a) = some (v, a) := by
  induction v with
  | nil => simp [splitAtFirst]
  | cons x xs ih =>
    have hx : x ≠ c := fun h => hv (by simp [h])
    have hxs : c ∉ xs := fun h => hv (by simp [h])
    simp [splitAtFirst, hx, ih hxs]

/-- Splitting `volumeID/attachmentID` at its first "/" gives the two parts
back when the volume ID has no "/". -/
theorem splitAtFirstSlash_join (volumeID attachmentID : String)
    (hv : '/' ∉ volumeID.data) :
    splitAtFirstSlash (volumeID ++ "/" ++ attachmentID) = some (volumeID, attachmentID) := by
  have h1 : (volumeID ++ "/" ++ attachmentID).data =
      volumeID.data ++ '/' :: attachmentID.data := by
    simp [String.data_append]
  simp [splitAtFirstSlash, h1, splitAtFirst_append _ _ _ hv]

theorem resourceBlockStorageVolumeAttachV2Read_events {Config : Type} (h : Helpers Config)
    (d : ResourceData) (config : Config) (env : VolumeAttachReadEnv) (id : String) :
    Event.SetId id ∉ (resourceBlockStorageVolumeAttachV2Read h d config env).run.events := by
  unfold resourceBlockStorageVolumeAttachV2Read
  obtain ⟨c, g⟩ := env
  cases c <;> simp [Run.call]
  cases h.blockStorageVolumeAttachV2ParseID d.id <;> simp
  cases g <;> simp

/-- The Read of the volume attachment leaves the resource data as it was. -/
theorem resourceBlockStorageVolumeAttachV2Read_d {Config : Type} (h : Helpers Config)
    (d : ResourceData) (config : Config) (env : VolumeAttachReadEnv) :
    (resourceBlockStorageVolumeAttachV2Read h d config env).run.d = d := by
  unfold resourceBlockStorageVolumeAttachV2Read
  obtain ⟨c, g⟩ := env
  cases c <;> simp [Run.call]
  cases h.blockStorageVolumeAttachV2ParseID d.id <;> simp
  cases g <;> simp

@[simp] theorem resourceBlockStorageVolumeAttachV2CreateSetConnInfo_events (r : Run)
    (connInfo : ConnInfo) :
    (resourceBlockStorageVolumeAttachV2CreateSetConnInfo r connInfo).events = r.events := by
  unfold resourceBlockStorageVolumeAttachV2CreateSetConnInfo
  rcases connInfo with ⟨_ | dt, _ | dv, _ | mp⟩ <;> simp

@[simp] theorem resourceBlockStorageVolumeAttachV2CreateSetConnInfo_d_id (r : Run)
    (connInfo : ConnInfo) :
    (resourceBlockStorageVolumeAttachV2CreateSetConnInfo r connInfo).d.id = r.d.id := by
  unfold resourceBlockStorageVolumeAttachV2CreateSetConnInfo
  rcases connInfo with ⟨_ | dt, _ | dv, _ | mp⟩ <;> simp [SetIgnoreErr_id]

/-- Claim C3. Whenever the Create of the volume attachment calls `SetId`, the ID
is the configured volume ID, then "/", then a non-empty attachment ID, and
that ID is the one the resource data has when Create returns; so when the
volume ID has no "/", splitting the ID at its first "/" gives back the
volume ID and the attachment ID. -/
theorem resourceBlockStorageVolumeAttachV2Create_id {Config : Type} (h : Helpers Config)
    (d : ResourceData) (config : Config) (env : VolumeAttachCreateEnv) (id : String)
    (hset : Event.SetId id ∈
      (resourceBlockStorageVolumeAttachV2Create h d config env).run.events) :
    let volumeID := asString (d.Get resourceBlockStorageVolumeAttachV2.Schema "volume_id")
    ∃ attachmentID : String,
      attachmentID ≠ "" ∧
      id = volumeID ++ "/" ++ attachmentID ∧
      (resourceBlockStorageVolumeAttachV2Create h d config env).run.d.id = id ∧
      ('/' ∉ volumeID.data → splitAtFirstSlash id = some (volumeID, attachmentID)) := by
  intro volumeID
  have hvol : volumeID =
      asString (d.Get resourceBlockStorageVolumeAttachV2.Schema "volume_id") := rfl
  clear_value volumeID
  subst hvol
  revert hset
  generalize hv : asString (d.Get resourceBlockStorageVolumeAttachV2.Schema "volume_id") = v
  unfold resourceBlockStorageVolumeAttachV2Create
  simp only [hv]
  repeat' split
  all_goals try (solve | (intro hset; simp at hset))
  rename_i hne
  intro hset
  simp only [Outcome.after_events, Outcome.after_d, resourceBlockStorageVolumeAttachV2Read_d,
    Run.SetId_events, Run.SetId_d_id, Run.call_events,
    resourceBlockStorageVolumeAttachV2CreateSetConnInfo_events, List.mem_append,
    List.mem_cons, List.mem_singleton, List.not_mem_nil,
    resourceBlockStorageVolumeAttachV2Read_events, or_false, false_or, Event.SetId.injEq,
    reduceCtorEq] at hset ⊢
  refine ⟨_, hne, hset, hset.symm, fun hslash => ?_⟩
  rw [hset]
  exact splitAtFirstSlash_join _ _ hslash

set_option maxRecDepth 100000 in
/-- On the sample attachment Create calls `SetId` with `vol-1/att-1`, which
splits into `vol-1` and a non-empty attachment ID. -/
theorem resourceBlockStorageVolumeAttachV2Create_id_witness :
    Event.SetId "vol-1/att-1" ∈
      (resourceBlockStorageVolumeAttachV2Create exampleHelpers exampleAttachData ()
        exampleAttachEnv).run.events ∧
    ∃ attachmentID : String,
      attachmentID ≠ "" ∧
      (resourceBlockStorageVolumeAttachV2Create exampleHelpers exampleAttachData ()
        exampleAttachEnv).run.d.id = "vol-1/att-1" ∧
      splitAtFirstSlash "vol-1/att-1" = some ("vol-1", attachmentID) := by
  have hmem : Event.SetId "vol-1/att-1" ∈
      (resourceBlockStorageVolumeAttachV2Create exampleHelpers exampleAttachData ()
        exampleAttachEnv).run.events := by decide
  obtain ⟨a, hne, _, hid, hsplit⟩ :=
    resourceBlockStorageVolumeAttachV2Create_id exampleHelpers exampleAttachData ()
      exampleAttachEnv "vol-1/att-1" hmem
  exact ⟨hmem, a, hne, hid, hsplit (by decide)⟩

/-- What Create records of the connection info does not depend on the events
so far. -/
theorem resourceBlockStorageVolumeAttachV2CreateSetConnInfo_d_of_events (d : ResourceData)
    (ev : List Event) (connInfo : ConnInfo) :
    (resourceBlockStorageVolumeAttachV2CreateSetConnInfo { d := d, events := ev }
      connInfo).d =
    (resourceBlockStorageVolumeAttachV2CreateSetConnInfo { d := d, events := [] }
      connInfo).d := by
  unfold resourceBlockStorageVolumeAttachV2CreateSetConnInfo
  rcases connInfo with ⟨_ | dt, _ | dv, _ | mp⟩ <;> try rfl
  all_goals (first | (cases dv <;> cases mp <;> rfl) | (cases dv <;> rfl) | (cases mp <;> rfl))

/-- Whatever the helpers are: when `expandBlockStorageV2AttachMode` returns an
error, Create returns no diagnostics, its only calls are the client creation
and `InitializeConnection`, and the ID is what it was. -/
theorem resourceBlockStorageVolumeAttachV2Create_of_attach_mode_error {Config : Type}
    (h : Helpers Config) (d : ResourceData) (config : Config) (env : VolumeAttachCreateEnv)
    (connInfo : ConnInfo) (err : GoError)
    (hc : env.BlockStorageV2Client = .ok ())
    (hi : env.InitializeConnection = .ok connInfo)
    (hmode : h.expandBlockStorageV2AttachMode
      (asString ((resourceBlockStorageVolumeAttachV2CreateSetConnInfo
        { d := d, events := [] } connInfo).d.Get
          resourceBlockStorageVolumeAttachV2.Schema "attach_mode")) = .error err) :
    let out := resourceBlockStorageVolumeAttachV2Create h d config env
    out.diags = [] ∧
    out.run.events =
      [.BlockStorageV2Client (h.GetRegion d config),
       .InitializeConnection
         (asString (d.Get resourceBlockStorageVolumeAttachV2.Schema "volume_id"))
         (resourceBlockStorageVolumeAttachV2CreateConnOpts d)] ∧
    out.run.d.id = d.id := by
  intro out
  have hd : ∀ ev : List Event,
      (resourceBlockStorageVolumeAttachV2CreateSetConnInfo { d := d, events := ev }
        connInfo).d =
      (resourceBlockStorageVolumeAttachV2CreateSetConnInfo { d := d, events := [] }
        connInfo).d :=
    fun ev => resourceBlockStorageVolumeAttachV2CreateSetConnInfo_d_of_events d ev connInfo
  simp only [out]
  unfold resourceBlockStorageVolumeAttachV2Create
  simp only [hc, hi, Run.call, List.nil_append, List.cons_append, hd, hmode,
    resourceBlockStorageVolumeAttachV2CreateSetConnInfo_events,
    resourceBlockStorageVolumeAttachV2CreateSetConnInfo_d_id, and_self]

/-- An ID of the form `volumeID/attachmentID` is not empty. -/
theorem join_ne_empty (v a : String) : v ++ "/" ++ a ≠ "" := by
  intro h
  have := congrArg String.data h
  simp [String.data_append] at this

/-- A Create of the volume attachment that returns no diagnostics has either
stopped at an error of `expandBlockStorageV2AttachMode`, or has called
`Attach` for the volume and left a non-empty ID. -/
theorem resourceBlockStorageVolumeAttachV2Create_no_error {Config : Type} (h : Helpers Config)
    (d : ResourceData) (config : Config) (env : VolumeAttachCreateEnv)
    (hok : (resourceBlockStorageVolumeAttachV2Create h d config env).diags = []) :
    (∃ connInfo err, env.InitializeConnection = .ok connInfo ∧
      h.expandBlockStorageV2AttachMode
        (asString ((resourceBlockStorageVolumeAttachV2CreateSetConnInfo
          { d := d, events := [] } connInfo).d.Get
            resourceBlockStorageVolumeAttachV2.Schema "attach_mode")) = .error err) ∨
    ((∃ opts, Event.Attach
        (asString (d.Get resourceBlockStorageVolumeAttachV2.Schema "volume_id")) opts ∈
        (resourceBlockStorageVolumeAttachV2Create h d config env).run.events) ∧
      (resourceBlockStorageVolumeAttachV2Create h d config env).run.d.id ≠ "") := by
  revert hok
  unfold resourceBlockStorageVolumeAttachV2Create
  simp only []
  repeat' split
  all_goals try (solve | (intro hok; simp at hok))
  · rename_i connInfo hi _ err hmode
    intro _
    left
    refine ⟨connInfo, err, hi, ?_⟩
    simpa only [Run.call,
      resourceBlockStorageVolumeAttachV2CreateSetConnInfo_d_of_events] using hmode
  · intro _
    right
    refine ⟨?_, ?_⟩
    · apply Exists.intro
      simp only [Outcome.after_events, Run.SetId_events, Run.call_events,
        resourceBlockStorageVolumeAttachV2CreateSetConnInfo_events, List.mem_append,
        List.mem_cons, List.mem_singleton]
      left; left; left; left; right; left
      exact rfl
    · simp only [Outcome.after_d, resourceBlockStorageVolumeAttachV2Read_d, Run.SetId_d_id]
      exact join_ne_empty _ _

set_option maxRecDepth 100000 in
/-- Claim C4: the code at the failing input. With the attach mode `RO`, which
the sample `expandBlockStorageV2AttachMode` rejects, Create returns no
diagnostics although it stops right after `InitializeConnection`: `Attach`
is never called and the ID stays empty. -/
theorem resourceBlockStorageVolumeAttachV2Create_attach_mode_error_swallowed :
    exampleHelpers.expandBlockStorageV2AttachMode "RO" =
      .error (.other "Invalid attach_mode specified") ∧
    (resourceBlockStorageVolumeAttachV2Create exampleHelpers exampleAttachDataBadMode ()
      exampleAttachEnv).diags = [] ∧
    (resourceBlockStorageVolumeAttachV2Create exampleHelpers exampleAttachDataBadMode ()
      exampleAttachEnv).run.events =
        [.BlockStorageV2Client "RegionOne",
         .InitializeConnection "vol-1" { Host := "node-1" }] ∧
    (resourceBlockStorageVolumeAttachV2Create exampleHelpers exampleAttachDataBadMode ()
      exampleAttachEnv).run.d.id = "" := by
  refine ⟨by rfl, ?_⟩
  decide

/-- Whatever the resource data holds, the connection options of Create and of
Delete have no `Wwnns` and no `Wwpns`: the lookups use the keys `wwnns` and
`wwpns`, which the schema does not declare. -/
theorem resourceBlockStorageVolumeAttachV2_wwn_never_passed (d : ResourceData) :
    (resourceBlockStorageVolumeAttachV2CreateConnOpts d).Wwnns = "" ∧
    (resourceBlockStorageVolumeAttachV2CreateConnOpts d).Wwpns = [] ∧
    (resourceBlockStorageVolumeAttachV2DeleteTermOpts d).Wwnns = "" ∧
    (resourceBlockStorageVolumeAttachV2DeleteTermOpts d).Wwpns = [] := by
  have l1 : resourceBlockStorageVolumeAttachV2.Schema.lookup "wwnns" = none := by rfl
  have l2 : resourceBlockStorageVolumeAttachV2.Schema.lookup "wwpns" = none := by rfl
  have h1 : (d.GetOk resourceBlockStorageVolumeAttachV2.Schema "wwnns").2 = false := by
    simp only [ResourceData.GetOk, l1]
  have h2 : (d.GetOk resourceBlockStorageVolumeAttachV2.Schema "wwpns").2 = false := by
    simp only [ResourceData.GetOk, l2]
  have hc : (resourceBlockStorageVolumeAttachV2CreateConnOpts d).Wwnns = "" ∧
      (resourceBlockStorageVolumeAttachV2CreateConnOpts d).Wwpns = [] := by
    unfold resourceBlockStorageVolumeAttachV2CreateConnOpts
    lift_lets
    extract_lets sch o0 o1 o2 o3 o4 o5 o6 o7 o8
    have e0 : o0.Wwnns = "" ∧ o0.Wwpns = [] := ⟨rfl, rfl⟩
    have e1 : o1.Wwnns = "" ∧ o1.Wwpns = [] := by
      simp only [o1]; split <;> exact e0
    have e2 : o2.Wwnns = "" ∧ o2.Wwpns = [] := by
      simp only [o2]; split <;> exact e1
    have e3 : o3.Wwnns = "" ∧ o3.Wwpns = [] := by
      simp only [o3]; split <;> exact e2
    have e4 : o4.Wwnns = "" ∧ o4.Wwpns = [] := by
      simp only [o4]; split <;> exact e3
    have e5 : o5.Wwnns = "" ∧ o5.Wwpns = [] := by
      simp only [o5]; split <;> exact e4
    have e6 : o6.Wwnns = "" ∧ o6.Wwpns = [] := by
      simp only [o6]; split <;> exact e5
    have e7 : o7.Wwnns = "" ∧ o7.Wwpns = [] := by
      simp only [o7, sch, h1]; exact e6
    simp only [o8, sch, h2]
    exact e7
  have hd : (resourceBlockStorageVolumeAttachV2DeleteTermOpts d).Wwnns = "" ∧
      (resourceBlockStorageVolumeAttachV2DeleteTermOpts d).Wwpns = [] := by
    unfold resourceBlockStorageVolumeAttachV2DeleteTermOpts
    lift_lets
    extract_lets sch o0 o1 o2 o3 o4 o5 o6 o7 o8
    have e0 : o0.Wwnns = "" ∧ o0.Wwpns = [] := ⟨rfl, rfl⟩
    have e1 : o1.Wwnns = "" ∧ o1.Wwpns = [] := by
      simp only [o1]; split <;> exact e0
    have e2 : o2.Wwnns = "" ∧ o2.Wwpns = [] := by
      simp only [o2]; split <;> exact e1
    have e3 : o3.Wwnns = "" ∧ o3.Wwpns = [] := by
      simp only [o3]; split <;> exact e2
    have e4 : o4.Wwnns = "" ∧ o4.Wwpns = [] := by
      simp only [o4]; split <;> exact e3
    have e5 : o5.Wwnns = "" ∧ o5.Wwpns = [] := by
      simp only [o5]; split <;> exact e4
    have e6 : o6.Wwnns = "" ∧ o6.Wwpns = [] := by
      simp only [o6]; split <;> exact e5
    have e7 : o7.Wwnns = "" ∧ o7.Wwpns = [] := by
      simp only [o7, sch, h1]; exact e6
    simp only [o8, sch, h2]
    exact e7
  exact ⟨hc.1, hc.2, hd.1, hd.2⟩

set_option maxRecDepth 100000 in
/-- Claim C5: the code at the failing input. The sample attachment sets `wwnn`
and `wwpn` to non-empty values, and both Create, in the
`InitializeConnection` call it makes, and Delete pass options whose `Wwnns`
is empty and whose `Wwpns` is empty. -/
theorem resourceBlockStorageVolumeAttachV2_wwn_dropped :
    exampleAttachData.GetOk resourceBlockStorageVolumeAttachV2.Schema "wwnn" =
      (some (.string "20:00:00:25:b5:00:00:0f"), true) ∧
    exampleAttachData.GetOk resourceBlockStorageVolumeAttachV2.Schema "wwpn" =
      (some (.list ["21:00:00:24:ff:00:00:01"]), true) ∧
    Event.InitializeConnection "vol-1" { Host := "node-1", Wwnns := "", Wwpns := [] } ∈
      (resourceBlockStorageVolumeAttachV2Create exampleHelpers exampleAttachData ()
        exampleAttachEnv).run.events ∧
    (resourceBlockStorageVolumeAttachV2DeleteTermOpts exampleAttachData).Wwnns = "" ∧
    (resourceBlockStorageVolumeAttachV2DeleteTermOpts exampleAttachData).Wwpns = [] := by
  decide

/-- Claim C7. The validator of `attach_mode` is that of the schema entry, and it
accepts a string exactly when it is `ro` or `rw`; any other string, `RO`,
`RW` and the empty string among them, gets the error that names the two
allowed values. -/
theorem resourceBlockStorageVolumeAttachV2_attach_mode_validator :
    ∃ s f,
      resourceBlockStorageVolumeAttachV2.Schema.lookup "attach_mode" = some s ∧
      s.ValidateFunc = some f ∧
      (∀ v : String, f (.string v) "attach_mode" = ([], []) ↔ (v = "ro" ∨ v = "rw")) ∧
      (∀ v : String, ¬ (v = "ro" ∨ v = "rw") →
        f (.string v) "attach_mode" =
          ([], ["expected attach_mode to be one of [ro rw], got " ++ v])) ∧
      (f (.string "RO") "attach_mode").2 ≠ [] ∧
      (f (.string "RW") "attach_mode").2 ≠ [] ∧
      (f (.string "") "attach_mode").2 ≠ [] := by
  refine ⟨_, StringInSlice ["ro", "rw"] false, rfl, rfl, ?_, ?_, by decide, by decide,
    by decide⟩
  · intro v
    by_cases h1 : v = "ro"
    · simp [StringInSlice, h1]
    · by_cases h2 : v = "rw"
      · simp [StringInSlice, h2]
      · simp [StringInSlice, h1, h2]
  · intro v hv
    have h1 : v ≠ "ro" := fun h => hv (Or.inl h)
    have h2 : v ≠ "rw" := fun h => hv (Or.inr h)
    have hf : formatStrings ["ro", "rw"] = "[ro rw]" := by decide
    simp [StringInSlice, h1, h2, hf]

/-! ## Theorems: the network -/

theorem dnsDomainRegexp_matchEnds (s : List Char) (i : Nat) :
    (dnsDomainRegexp.matchEnds s i).isEmpty = false ↔
      (i = 0 ∧ s.length = 0) ∨ (s.get? i = some '.' ∧ i + 1 = s.length) := by
  simp only [dnsDomainRegexp, Regexp.matchEnds]
  by_cases h0 : i = 0 <;> by_cases hl : s.length = 0 <;>
    by_cases hd : s.get? i = some '.' <;> by_cases he : i + 1 = s.length <;>
    simp [h0, hl, hd, he] <;> omega

/-- The regular expression of `dns_domain` matches exactly the empty text and
the texts that end in a dot. -/
theorem dnsDomainRegexp_MatchString (v : String) :
    dnsDomainRegexp.MatchString v = true ↔ v = "" ∨ v.data.getLast? = some '.' := by
  unfold Regexp.MatchString
  rw [List.any_eq_true]
  constructor
  · rintro ⟨i, _, hi⟩
    have hi' : (dnsDomainRegexp.matchEnds v.data i).isEmpty = false := by simpa using hi
    rcases (dnsDomainRegexp_matchEnds v.data i).1 hi' with ⟨_, hl⟩ | ⟨hd, he⟩
    · left
      have : v.data = [] := List.length_eq_zero.mp hl
      exact String.ext this
    · right
      rw [List.getLast?_eq_getElem?, ← he]
      simpa using hd
  · rintro (h0 | hlast)
    · subst h0
      exact ⟨0, by simp, by decide⟩
    · have hne : v.data ≠ [] := by
        intro h; rw [h] at hlast; simp at hlast
      have hpos : 0 < v.data.length := List.length_pos.mpr hne
      refine ⟨v.data.length - 1, by simp; omega, ?_⟩
      suffices (dnsDomainRegexp.matchEnds v.data (v.data.length - 1)).isEmpty = false by
        rw [this]
        rfl
      have : (dnsDomainRegexp.matchEnds v.data (v.data.length - 1)).isEmpty = false := by
        rw [dnsDomainRegexp_matchEnds]
        right
        refine ⟨?_, by omega⟩
        rw [List.getLast?_eq_getElem?] at hlast
        simpa using hlast
      exact this

/-- Claim C6. The validator of `dns_domain` is that of the schema entry, and it
accepts a string exactly when it is empty or its last character is a dot;
every other string gets the one error saying that fully-qualified DNS domain
names must have a dot at the end. -/
theorem resourceNetworkingNetworkV2_dns_domain_validator :
    ∃ s f,
      resourceNetworkingNetworkV2.Schema.lookup "dns_domain" = some s ∧
      s.ValidateFunc = some f ∧
      (∀ v : String, f (.string v) "dns_domain" = ([], []) ↔
        (v = "" ∨ v.data.getLast? = some '.')) ∧
      (∀ v : String, ¬ (v = "" ∨ v.data.getLast? = some '.') →
        f (.string v) "dns_domain" =
          ([], ["invalid value for dns_domain (fully-qualified (unambiguous) DNS " ++
                "domain names must have a dot at the end)"])) := by
  refine ⟨_, StringMatch dnsDomainRegexp dnsDomainRegexpSource
    ("fully-qualified (unambiguous) DNS domain names must have " ++ "a dot at the end"),
    rfl, rfl, ?_, ?_⟩
  · intro v
    rw [← dnsDomainRegexp_MatchString]
    cases hm : dnsDomainRegexp.MatchString v
    · simp [StringMatch, hm]
    · simp [StringMatch, hm]
  · intro v hv
    rw [← dnsDomainRegexp_MatchString] at hv
    have hm : dnsDomainRegexp.MatchString v = false := by simpa using hv
    have hmsg : ("fully-qualified (unambiguous) DNS domain names must have " ++
        "a dot at the end") ≠ "" := by decide
    simp only [StringMatch, hm, Bool.not_false, if_true, hmsg, ne_eq, not_false_eq_true]
    decide

/-- When `networks.Get` fails, the Read of the network writes no attribute
itself: it returns what `diag.FromErr` makes of the error that `CheckDeleted`
returns, no diagnostics at all when that is nil, and leaves the resource
data that `CheckDeleted` returns. -/
theorem resourceNetworkingNetworkV2Read_of_get_error {Config : Type} (h : Helpers Config)
    (d : ResourceData) (config : Config) (err : GoError) :
    (resourceNetworkingNetworkV2Read h d config
      { NetworkingV2Client := .ok (), NetworksGet := .error err }).diags =
      diagFromErr
        (h.CheckDeleted d err "Error getting viettelidc_networking_network_v2").2 ∧
    (resourceNetworkingNetworkV2Read h d config
      { NetworkingV2Client := .ok (), NetworksGet := .error err }).run.d =
      (h.CheckDeleted d err "Error getting viettelidc_networking_network_v2").1 :=
  ⟨rfl, rfl⟩

set_option maxRecDepth 100000 in
/-- Claim C8 as stated fails: on the sample network, when `networks.Get` fails
with a 404 error and `CheckDeleted` turns it into no error, Read returns no
diagnostics although no network was retrieved; it has written no attribute,
so `name` and `mtu` still read as in the prior state, and the ID is
cleared. -/
theorem resourceNetworkingNetworkV2Read_not_found_no_write :
    (resourceNetworkingNetworkV2Read exampleHelpers exampleNetworkState ()
      exampleNetworkGoneEnv).diags = [] ∧
    (¬ ∃ network : NetworkExtended,
      exampleNetworkGoneEnv.NetworksGet = .ok network ∧
      (resourceNetworkingNetworkV2Read exampleHelpers exampleNetworkState ()
        exampleNetworkGoneEnv).run.d.Get resourceNetworkingNetworkV2.Schema "name" =
          some (.string network.Name)) ∧
    (resourceNetworkingNetworkV2Read exampleHelpers exampleNetworkState ()
      exampleNetworkGoneEnv).run.d.written = [] ∧
    (resourceNetworkingNetworkV2Read exampleHelpers exampleNetworkState ()
      exampleNetworkGoneEnv).run.d.Get resourceNetworkingNetworkV2.Schema "name" =
        exampleNetworkState.Get resourceNetworkingNetworkV2.Schema "name" ∧
    (resourceNetworkingNetworkV2Read exampleHelpers exampleNetworkState ()
      exampleNetworkGoneEnv).run.d.Get resourceNetworkingNetworkV2.Schema "mtu" =
        exampleNetworkState.Get resourceNetworkingNetworkV2.Schema "mtu" ∧
    (resourceNetworkingNetworkV2Read exampleHelpers exampleNetworkState ()
      exampleNetworkGoneEnv).run.d.id = "" := by
  refine ⟨by decide, ?_, by decide, by decide, by decide, by decide⟩
  rintro ⟨network, hget, _⟩
  have hne : (Except.error (GoError.ErrDefault404 "Resource not found") :
      Except GoError NetworkExtended) = .ok network := hget
  cases hne

/-- Claim C8, amended. When client creation succeeds and `networks.Get` retrieves a
network, Read returns no diagnostics and the resource data then holds the
network's `name`, `description`, `admin_state_up`, `shared`, `external`,
`tenant_id`, `transparent_vlan`, `port_security_enabled`, `mtu`,
`dns_domain`, `qos_policy_id` and `availability_zone_hints`, the flattened
segments under `segments`, and under `region` what `GetRegion` gives on the
resource data as it is at that call (the twelve earlier writes made) and the
config.  The tag helper, which runs in between, is assumed to leave every
attribute other than `tags` and `all_tags` as it was. -/
theorem resourceNetworkingNetworkV2Read_success {Config : Type} (h : Helpers Config)
    (d : ResourceData) (config : Config)
    (network : NetworkExtended)
    (hframe : ∀ (d' : ResourceData) (tags : List String) (key : String),
      key ≠ "tags" → key ≠ "all_tags" →
      (h.networkingV2ReadAttributesTags d' tags).Get resourceNetworkingNetworkV2.Schema key =
        d'.Get resourceNetworkingNetworkV2.Schema key) :
    let sch := resourceNetworkingNetworkV2.Schema
    let out := resourceNetworkingNetworkV2Read h d config
      { NetworkingV2Client := .ok (), NetworksGet := .ok network }
    let d₁ : ResourceData :=
      { d with written :=
          [("qos_policy_id", .string network.QoSPolicyID),
           ("dns_domain", .string network.DNSDomain),
           ("mtu", .int network.MTU),
           ("port_security_enabled", .bool network.PortSecurityEnabled),
           ("transparent_vlan", .bool network.VLANTransparent),
           ("segments", .segments (h.flattenNetworkingNetworkSegmentsV2 network)),
           ("tenant_id", .string network.TenantID),
           ("external", .bool network.External),
           ("shared", .bool network.Shared),
           ("admin_state_up", .bool network.AdminStateUp),
           ("description", .string network.Description),
           ("name", .string network.Name)] ++ d.written }
    out.diags = [] ∧
    out.run.d.Get sch "name" = some (.string network.Name) ∧
    out.run.d.Get sch "description" = some (.string network.Description) ∧
    out.run.d.Get sch "admin_state_up" = some (.bool network.AdminStateUp) ∧
    out.run.d.Get sch "shared" = some (.bool network.Shared) ∧
    out.run.d.Get sch "external" = some (.bool network.External) ∧
    out.run.d.Get sch "tenant_id" = some (.string network.TenantID) ∧
    out.run.d.Get sch "transparent_vlan" = some (.bool network.VLANTransparent) ∧
    out.run.d.Get sch "port_security_enabled" = some (.bool network.PortSecurityEnabled) ∧
    out.run.d.Get sch "mtu" = some (.int network.MTU) ∧
    out.run.d.Get sch "dns_domain" = some (.string network.DNSDomain) ∧
    out.run.d.Get sch "qos_policy_id" = some (.string network.QoSPolicyID) ∧
    out.run.d.Get sch "availability_zone_hints" = some (.set network.AvailabilityZoneHints) ∧
    out.run.d.Get sch "segments" =
      some (.segments (h.flattenNetworkingNetworkSegmentsV2 network)) ∧
    out.run.d.Get sch "region" = some (.string (h.GetRegion d₁ config)) := by
  intro sch out d₁
  have c1 : ∀ x, conformsAt sch "name" (.string x) = true := fun _ => rfl
  have c2 : ∀ x, conformsAt sch "description" (.string x) = true := fun _ => rfl
  have c3 : ∀ x, conformsAt sch "admin_state_up" (.bool x) = true := fun _ => rfl
  have c4 : ∀ x, conformsAt sch "shared" (.bool x) = true := fun _ => rfl
  have c5 : ∀ x, conformsAt sch "external" (.bool x) = true := fun _ => rfl
  have c6 : ∀ x, conformsAt sch "tenant_id" (.string x) = true := fun _ => rfl
  have c7 : ∀ x, conformsAt sch "segments" (.segments x) = true := fun _ => rfl
  have c8 : ∀ x, conformsAt sch "transparent_vlan" (.bool x) = true := fun _ => rfl
  have c9 : ∀ x, conformsAt sch "port_security_enabled" (.bool x) = true := fun _ => rfl
  have c10 : ∀ x, conformsAt sch "mtu" (.int x) = true := fun _ => rfl
  have c11 : ∀ x, conformsAt sch "dns_domain" (.string x) = true := fun _ => rfl
  have c12 : ∀ x, conformsAt sch "qos_policy_id" (.string x) = true := fun _ => rfl
  have c13 : ∀ x, conformsAt sch "region" (.string x) = true := fun _ => rfl
  have c14 : ∀ x, conformsAt sch "availability_zone_hints" (.set x) = true := fun _ => rfl
  have hd₁ : d₁ = (((((((((((d.SetIgnoreErr sch "name" (.string network.Name)).SetIgnoreErr sch
      "description" (.string network.Description)).SetIgnoreErr sch
      "admin_state_up" (.bool network.AdminStateUp)).SetIgnoreErr sch
      "shared" (.bool network.Shared)).SetIgnoreErr sch
      "external" (.bool network.External)).SetIgnoreErr sch
      "tenant_id" (.string network.TenantID)).SetIgnoreErr sch
      "segments" (.segments (h.flattenNetworkingNetworkSegmentsV2 network))).SetIgnoreErr sch
      "transparent_vlan" (.bool network.VLANTransparent)).SetIgnoreErr sch
      "port_security_enabled" (.bool network.PortSecurityEnabled)).SetIgnoreErr sch
      "mtu" (.int network.MTU)).SetIgnoreErr sch
      "dns_domain" (.string network.DNSDomain)).SetIgnoreErr sch
      "qos_policy_id" (.string network.QoSPolicyID) := by
    simp only [SetIgnoreErr_conforms_eq, c1, c2, c3, c4, c5, c6, c7, c8, c9, c10, c11, c12]
    rfl
  have hout : out.run.d =
      ((h.networkingV2ReadAttributesTags
        (d₁.SetIgnoreErr sch "region" (.string (h.GetRegion d₁ config)))
        network.Tags).SetIgnoreErr
          sch "availability_zone_hints" (.set network.AvailabilityZoneHints)) := by
    rw [hd₁]
    rfl
  have hdiags : out.diags = [] := rfl
  rw [hout]
  refine ⟨hdiags, ?_, ?_, ?_, ?_, ?_, ?_, ?_, ?_, ?_, ?_, ?_, ?_, ?_, ?_⟩
  all_goals first
    | exact Get_SetIgnoreErr_conforms _ _ _ _ (c14 _)
    | (rw [Get_SetIgnoreErr_ne _ _ _ _ _ (by decide), hframe _ _ _ (by decide) (by decide)]
       first
        | exact Get_SetIgnoreErr_conforms _ _ _ _ (c13 _)
        | (rw [Get_SetIgnoreErr_ne _ _ _ _ _ (by decide), hd₁]
           simp (disch := first | decide | simp only [c1, c2, c3, c4, c5, c6, c7, c8, c9,
             c10, c11, c12]) only [Get_SetIgnoreErr_ne, Get_SetIgnoreErr_conforms]))

/-- On the sample network the tag helper writes `all_tags` only, and Read
returns no diagnostics and reflects the name and the MTU of the network. -/
theorem resourceNetworkingNetworkV2Read_success_witness :
    (∀ (d' : ResourceData) (tags : List String) (key : String),
      key ≠ "tags" → key ≠ "all_tags" →
      (exampleHelpers.networkingV2ReadAttributesTags d' tags).Get
        resourceNetworkingNetworkV2.Schema key =
          d'.Get resourceNetworkingNetworkV2.Schema key) ∧
    (resourceNetworkingNetworkV2Read exampleHelpers exampleNetworkData ()
      { NetworkingV2Client := .ok (), NetworksGet := .ok exampleNetwork }).diags = [] ∧
    (resourceNetworkingNetworkV2Read exampleHelpers exampleNetworkData ()
      { NetworkingV2Client := .ok (), NetworksGet := .ok exampleNetwork }).run.d.Get
        resourceNetworkingNetworkV2.Schema "name" = some (.string exampleNetwork.Name) ∧
    (resourceNetworkingNetworkV2Read exampleHelpers exampleNetworkData ()
      { NetworkingV2Client := .ok (), NetworksGet := .ok exampleNetwork }).run.d.Get
        resourceNetworkingNetworkV2.Schema "mtu" = some (.int exampleNetwork.MTU) := by
  have hframe : ∀ (d' : ResourceData) (tags : List String) (key : String),
      key ≠ "tags" → key ≠ "all_tags" →
      (exampleHelpers.networkingV2ReadAttributesTags d' tags).Get
        resourceNetworkingNetworkV2.Schema key =
          d'.Get resourceNetworkingNetworkV2.Schema key :=
    fun d' tags key _ h2 => Get_SetIgnoreErr_ne _ d' "all_tags" key (.set tags) h2
  have hall := resourceNetworkingNetworkV2Read_success exampleHelpers exampleNetworkData ()
    exampleNetwork hframe
  exact ⟨hframe, hall.1, hall.2.1, hall.2.2.2.2.2.2.2.2.2.1⟩

set_option maxRecDepth 100000 in
/-- Claim C9 as stated fails: the sample network sets `external` and
`transparent_vlan` to false, both are present in the configuration, and the
create options carry neither attribute. -/
theorem resourceNetworkingNetworkV2CreateOpts_external_false_dropped :
    exampleNetworkData.GetOkExists resourceNetworkingNetworkV2.Schema "external" =
      (some (.bool false), true) ∧
    (resourceNetworkingNetworkV2CreateOpts exampleHelpers exampleNetworkData).External? =
      none ∧
    exampleNetworkData.GetOkExists resourceNetworkingNetworkV2.Schema "transparent_vlan" =
      (some (.bool false), true) ∧
    (resourceNetworkingNetworkV2CreateOpts exampleHelpers
      exampleNetworkData).VLANTransparent? = none := by
  decide

/-- Claim C9, amended. The create options carry `External`, respectively
`VLANTransparent`, exactly when `external`, respectively `transparent_vlan`,
reads as true, and then with the value true; an attribute that is false or
not set is not carried. -/
theorem resourceNetworkingNetworkV2CreateOpts_external {Config : Type} (h : Helpers Config)
    (d : ResourceData) :
    (resourceNetworkingNetworkV2CreateOpts h d).External? =
      (if asBool (d.Get resourceNetworkingNetworkV2.Schema "external") then some (some true)
       else none) ∧
    (resourceNetworkingNetworkV2CreateOpts h d).VLANTransparent? =
      (if asBool (d.Get resourceNetworkingNetworkV2.Schema "transparent_vlan") then
        some (some true)
       else none) := by
  unfold resourceNetworkingNetworkV2CreateOpts
  lift_lets
  extract_lets sch az o0 o1 o2 f0 segs f1 ext f2 vlan f3 f4 mtu f5 dns f6 qos f7
  have e1 : f1.External? = none ∧ f1.VLANTransparent? = none := by
    simp only [f1]; split <;> exact ⟨rfl, rfl⟩
  have e2 : f2.External? = (if ext then some (some true) else none) ∧
      f2.VLANTransparent? = none := by
    simp only [f2]
    split
    · rename_i hx
      simp [CreateOptsBuilder.External?, CreateOptsBuilder.VLANTransparent?, hx, e1.2]
    · rename_i hx
      simp [hx, e1.1, e1.2]
  have e3 : f3.External? = (if ext then some (some true) else none) ∧
      f3.VLANTransparent? = (if vlan then some (some true) else none) := by
    simp only [f3]
    split
    · rename_i hx
      simp [CreateOptsBuilder.External?, CreateOptsBuilder.VLANTransparent?, hx, e2.1]
    · rename_i hx
      simp [hx, e2.1, e2.2]
  have e4 : f4.External? = f3.External? ∧ f4.VLANTransparent? = f3.VLANTransparent? := by
    simp only [f4]; split <;> exact ⟨rfl, rfl⟩
  have e5 : f5.External? = f4.External? ∧ f5.VLANTransparent? = f4.VLANTransparent? := by
    simp only [f5]; split <;> exact ⟨rfl, rfl⟩
  have e6 : f6.External? = f5.External? ∧ f6.VLANTransparent? = f5.VLANTransparent? := by
    simp only [f6]; split <;> exact ⟨rfl, rfl⟩
  have e7 : f7.External? = f6.External? ∧ f7.VLANTransparent? = f6.VLANTransparent? := by
    simp only [f7]; split <;> exact ⟨rfl, rfl⟩
  exact ⟨by rw [e7.1, e6.1, e5.1, e4.1, e3.1], by rw [e7.2, e6.2, e5.2, e4.2, e3.2]⟩

/-- Claim C10. The create options carry `PortSecurityEnabled` exactly when
`GetOkExists` finds `port_security_enabled` present, and then with the
configured value; `AdminStateUp` and `Shared` of the basic options are
non-nil exactly when `GetOkExists` finds `admin_state_up`, respectively
`shared`, present, and then point to the configured value. -/
theorem resourceNetworkingNetworkV2CreateOpts_GetOkExists {Config : Type} (h : Helpers Config)
    (d : ResourceData) :
    (resourceNetworkingNetworkV2CreateOpts h d).PortSecurityEnabled? =
      (if (d.GetOkExists resourceNetworkingNetworkV2.Schema "port_security_enabled").2 then
        some (some (asBool
          (d.GetOkExists resourceNetworkingNetworkV2.Schema "port_security_enabled").1))
       else none) ∧
    (resourceNetworkingNetworkV2CreateOpts h d).basic.AdminStateUp =
      (if (d.GetOkExists resourceNetworkingNetworkV2.Schema "admin_state_up").2 then
        some (asBool (d.GetOkExists resourceNetworkingNetworkV2.Schema "admin_state_up").1)
       else none) ∧
    (resourceNetworkingNetworkV2CreateOpts h d).basic.Shared =
      (if (d.GetOkExists resourceNetworkingNetworkV2.Schema "shared").2 then
        some (asBool (d.GetOkExists resourceNetworkingNetworkV2.Schema "shared").1)
       else none) := by
  unfold resourceNetworkingNetworkV2CreateOpts
  lift_lets
  extract_lets sch az o0 o1 o2 f0 segs f1 ext f2 vlan f3 f4 mtu f5 dns f6 qos f7
  have b1 : o1.AdminStateUp =
      (if (d.GetOkExists sch "admin_state_up").2 then
        some (asBool (d.GetOkExists sch "admin_state_up").1) else none) ∧
      o1.Shared = none := by
    simp only [o1]; split <;> exact ⟨rfl, rfl⟩
  have b2 : o2.AdminStateUp = o1.AdminStateUp ∧
      o2.Shared = (if (d.GetOkExists sch "shared").2 then
        some (asBool (d.GetOkExists sch "shared").1) else none) := by
    simp only [o2]
    split
    · exact ⟨rfl, rfl⟩
    · exact ⟨rfl, b1.2⟩
  have e0 : f0.basic = o2 ∧ f0.PortSecurityEnabled? = none := ⟨rfl, rfl⟩
  have e1 : f1.basic = o2 ∧ f1.PortSecurityEnabled? = none := by
    simp only [f1]; split <;> exact e0
  have e2 : f2.basic = o2 ∧ f2.PortSecurityEnabled? = none := by
    simp only [f2]; split <;> exact e1
  have e3 : f3.basic = o2 ∧ f3.PortSecurityEnabled? = none := by
    simp only [f3]; split <;> exact e2
  have e4 : f4.basic = o2 ∧ f4.PortSecurityEnabled? =
      (if (d.GetOkExists sch "port_security_enabled").2 then
        some (some (asBool (d.GetOkExists sch "port_security_enabled").1)) else none) := by
    simp only [f4]
    split
    · exact ⟨e3.1, rfl⟩
    · exact e3
  have e5 : f5.basic = f4.basic ∧ f5.PortSecurityEnabled? = f4.PortSecurityEnabled? := by
    simp only [f5]; split <;> exact ⟨rfl, rfl⟩
  have e6 : f6.basic = f5.basic ∧ f6.PortSecurityEnabled? = f5.PortSecurityEnabled? := by
    simp only [f6]; split <;> exact ⟨rfl, rfl⟩
  have e7 : f7.basic = f6.basic ∧ f7.PortSecurityEnabled? = f6.PortSecurityEnabled? := by
    simp only [f7]; split <;> exact ⟨rfl, rfl⟩
  refine ⟨by rw [e7.2, e6.2, e5.2, e4.2], ?_, ?_⟩
  · rw [e7.1, e6.1, e5.1, e4.1, b2.1, b1.1]
  · rw [e7.1, e6.1, e5.1, e4.1, b2.2]

set_option maxRecDepth 100000 in
/-- On the sample network, which sets `port_security_enabled` and `shared` to
false and `admin_state_up` to true, the create options carry all three with
exactly these values, the two that are false included. -/
theorem resourceNetworkingNetworkV2CreateOpts_GetOkExists_example :
    (resourceNetworkingNetworkV2CreateOpts exampleHelpers
      exampleNetworkData).PortSecurityEnabled? = some (some false) ∧
    (resourceNetworkingNetworkV2CreateOpts exampleHelpers
      exampleNetworkData).basic.AdminStateUp = some true ∧
    (resourceNetworkingNetworkV2CreateOpts exampleHelpers
      exampleNetworkData).basic.Shared = some false := by
  have hall := resourceNetworkingNetworkV2CreateOpts_GetOkExists exampleHelpers
    exampleNetworkData
  refine ⟨hall.1.trans (by decide), hall.2.1.trans (by decide), hall.2.2.trans (by decide)⟩

/-- Claim C11. The create options carry the MTU extension exactly when `mtu` is
greater than zero, and then with `mtu`; the DNS-domain extension exactly when
`dns_domain` is not empty, and then with `dns_domain`; the QoS-policy
extension exactly when `qos_policy_id` is not empty, and then with
`qos_policy_id`. -/
theorem resourceNetworkingNetworkV2CreateOpts_mtu_dns_qos {Config : Type}
    (h : Helpers Config) (d : ResourceData) :
    (resourceNetworkingNetworkV2CreateOpts h d).MTU? =
      (if asInt (d.Get resourceNetworkingNetworkV2.Schema "mtu") > 0 then
        some (asInt (d.Get resourceNetworkingNetworkV2.Schema "mtu"))
       else none) ∧
    (resourceNetworkingNetworkV2CreateOpts h d).DNSDomain? =
      (if asString (d.Get resourceNetworkingNetworkV2.Schema "dns_domain") ≠ "" then
        some (asString (d.Get resourceNetworkingNetworkV2.Schema "dns_domain"))
       else none) ∧
    (resourceNetworkingNetworkV2CreateOpts h d).QoSPolicyID? =
      (if asString (d.Get resourceNetworkingNetworkV2.Schema "qos_policy_id") ≠ "" then
        some (asString (d.Get resourceNetworkingNetworkV2.Schema "qos_policy_id"))
       else none) := by
  unfold resourceNetworkingNetworkV2CreateOpts
  lift_lets
  extract_lets sch az o0 o1 o2 f0 segs f1 ext f2 vlan f3 f4 mtu f5 dns f6 qos f7
  have e0 : f0.MTU? = none ∧ f0.DNSDomain? = none ∧ f0.QoSPolicyID? = none :=
    ⟨rfl, rfl, rfl⟩
  have e1 : f1.MTU? = none ∧ f1.DNSDomain? = none ∧ f1.QoSPolicyID? = none := by
    simp only [f1]; split <;> exact e0
  have e2 : f2.MTU? = none ∧ f2.DNSDomain? = none ∧ f2.QoSPolicyID? = none := by
    simp only [f2]; split <;> exact e1
  have e3 : f3.MTU? = none ∧ f3.DNSDomain? = none ∧ f3.QoSPolicyID? = none := by
    simp only [f3]; split <;> exact e2
  have e4 : f4.MTU? = none ∧ f4.DNSDomain? = none ∧ f4.QoSPolicyID? = none := by
    simp only [f4]; split <;> exact e3
  have e5 : f5.MTU? = (if mtu > 0 then some mtu else none) ∧ f5.DNSDomain? = none ∧
      f5.QoSPolicyID? = none := by
    simp only [f5]
    split
    · exact ⟨rfl, e4.2.1, e4.2.2⟩
    · exact e4
  have e6 : f6.MTU? = f5.MTU? ∧
      f6.DNSDomain? = (if dns ≠ "" then some dns else none) ∧ f6.QoSPolicyID? = none := by
    simp only [f6]
    split
    · exact ⟨rfl, rfl, e5.2.2⟩
    · exact ⟨rfl, e5.2.1, e5.2.2⟩
  have e7 : f7.MTU? = f6.MTU? ∧ f7.DNSDomain? = f6.DNSDomain? ∧
      f7.QoSPolicyID? = (if qos ≠ "" then some qos else none) := by
    simp only [f7]
    split
    · exact ⟨rfl, rfl, rfl⟩
    · exact ⟨rfl, rfl, e6.2.2⟩
  exact ⟨by rw [e7.1, e6.1, e5.1], by rw [e7.2.1, e6.2.1], e7.2.2⟩

/-! ## Theorems: reading attributes -/

/-- A value read at one level has the declared shape. -/
theorem readLevel_conforms (s : Schema) (l : List (String × Value)) (k : String) (v : Value)
    (hv : readLevel s l k = some v) : v.conforms s = true := by
  unfold readLevel at hv
  cases hl : l.lookup k with
  | none => simp [hl] at hv
  | some w =>
    simp only [hl] at hv
    by_cases hc : w.conforms s = true
    · simp only [hc, if_true, Option.some.injEq] at hv
      rw [← hv]
      exact hc
    · simp [hc] at hv

/-- What `Get` returns for a declared key has the declared shape, or is the
zero value. -/
theorem Get_conforms_or_zero (sch : SchemaMap) (d : ResourceData) (k : String) (s : Schema)
    (hk : sch.lookup k = some s) :
    ∃ v, d.Get sch k = some v ∧ (v.conforms s = true ∨ v = s.zero) := by
  unfold ResourceData.Get ResourceData.readField
  simp only [hk]
  cases hw : readLevel s d.written k with
  | some v => exact ⟨v, rfl, Or.inl (readLevel_conforms s _ k v hw)⟩
  | none =>
    by_cases hc : k ∈ d.computed
    · simp only [hc, if_true]
      exact ⟨s.zero, rfl, Or.inr rfl⟩
    · simp only [hc, if_false]
      cases hcf : readLevel s d.config k with
      | some v => exact ⟨v, rfl, Or.inl (readLevel_conforms s _ k v hcf)⟩
      | none =>
        cases hst : readLevel s d.state k with
        | some v => exact ⟨v, rfl, Or.inl (readLevel_conforms s _ k v hst)⟩
        | none => exact ⟨s.zero, rfl, Or.inr rfl⟩

/-- When `GetOk` reports a declared key as not set, `Get` gives the zero
value. -/
theorem Get_of_GetOk_false (sch : SchemaMap) (d : ResourceData) (k : String) (s : Schema)
    (hk : sch.lookup k = some s) (hok : (d.GetOk sch k).2 = false) :
    d.Get sch k = some s.zero := by
  unfold ResourceData.GetOk at hok
  simp only [hk, Bool.and_eq_false_imp, Bool.and_eq_true, Bool.not_eq_true',
    decide_eq_false_iff_not, ne_eq, not_not, and_imp] at hok
  by_contra hne
  have hne' : ¬ d.Get sch k = some s.zero := hne
  unfold ResourceData.Get ResourceData.readField at hne'
  unfold ResourceData.Get ResourceData.readField at hok
  simp only [hk] at hne' hok
  cases hw : readLevel s d.written k with
  | some v =>
    simp only [hw] at hne' hok
    exact hne' (by simpa using hok)
  | none =>
    simp only [hw] at hne' hok
    by_cases hc : k ∈ d.computed
    · simp [hc] at hne'
    · simp only [hc, if_false] at hne' hok
      cases hcf : readLevel s d.config k with
      | some v =>
        simp only [hcf] at hne' hok
        exact hne' (by simpa using hok)
      | none =>
        simp only [hcf] at hne' hok
        cases hst : readLevel s d.state k with
        | some v =>
          simp only [hst] at hne' hok
          exact hne' (by simpa using hok)
        | none =>
          simp [hst] at hne'

/-- When `GetOk` reports a declared key as set, `Get` does not give the zero
value. -/
theorem Get_of_GetOk_true (sch : SchemaMap) (d : ResourceData) (k : String) (s : Schema)
    (hk : sch.lookup k = some s) (hok : (d.GetOk sch k).2 = true) :
    d.Get sch k ≠ some s.zero := by
  unfold ResourceData.GetOk at hok
  simp only [hk, Bool.and_eq_true, decide_eq_true_eq] at hok
  exact hok.2

/-- The value that `GetOk` returns is the one `Get` returns. -/
theorem GetOk_fst (sch : SchemaMap) (d : ResourceData) (k : String) :
    (d.GetOk sch k).1 = d.Get sch k := by
  unfold ResourceData.GetOk
  cases sch.lookup k <;> rfl

/-- A string attribute that `GetOk` reports as not set reads as the empty
string. -/
theorem asString_of_GetOk_false (sch : SchemaMap) (d : ResourceData) (k : String)
    (s : Schema) (hk : sch.lookup k = some s) (hz : s.zero = .string "")
    (hok : (d.GetOk sch k).2 = false) : asString (d.Get sch k) = "" := by
  rw [Get_of_GetOk_false sch d k s hk hok, hz]
  rfl

/-- A boolean attribute that `GetOk` reports as not set reads as false. -/
theorem asBool_of_GetOk_false (sch : SchemaMap) (d : ResourceData) (k : String)
    (s : Schema) (hk : sch.lookup k = some s) (hz : s.zero = .bool false)
    (hok : (d.GetOk sch k).2 = false) : asBool (d.Get sch k) = false := by
  rw [Get_of_GetOk_false sch d k s hk hok, hz]
  rfl

/-- A boolean attribute that `GetOk` reports as set reads as true. -/
theorem asBool_of_GetOk_true (sch : SchemaMap) (d : ResourceData) (k : String)
    (s : Schema) (hk : sch.lookup k = some s) (ht : s.Type_ = .TypeBool)
    (hok : (d.GetOk sch k).2 = true) : asBool (d.Get sch k) = true := by
  have hne := Get_of_GetOk_true sch d k s hk hok
  obtain ⟨v, hv, hcz⟩ := Get_conforms_or_zero sch d k s hk
  rw [hv] at hne ⊢
  rcases hcz with hc | hz
  · cases v with
    | bool b =>
      cases b with
      | true => rfl
      | false =>
        exfalso
        apply hne
        simp [Schema.zero, ht]
    | _ => simp [Value.conforms, ht] at hc
  · exact absurd (by rw [hz]) hne

/-- Every value equals itself for `HasChange`. -/
theorem Value.equal_self (v : Value) : v.equal v = true := by
  cases v <;> simp [Value.equal]

/-- With nothing in the configuration or the diff, no attribute has changed. -/
theorem HasChange_of_no_diff (sch : SchemaMap) (d : ResourceData) (key : String)
    (hc : d.config = []) (hk : d.computed = []) : d.HasChange sch key = false := by
  have hd : ({ d with config := [], computed := [], written := [] } : ResourceData) =
      { d with written := [] } := by
    cases d
    simp_all
  unfold ResourceData.HasChange ResourceData.GetChange
  rw [hd]
  cases ResourceData.Get sch { d with written := [] } key with
  | none => rfl
  | some v => simp [Value.equal_self]

/-! ## Theorems: Update and Delete of the network -/

/-- The Read of the network never calls `networks.Update`. -/
theorem resourceNetworkingNetworkV2Read_no_update {Config : Type} (h : Helpers Config)
    (d : ResourceData) (config : Config) (env : NetworkReadEnv) :
    (resourceNetworkingNetworkV2Read h d config env).run.events.countP
      Event.isNetworksUpdate = 0 := by
  unfold resourceNetworkingNetworkV2Read
  obtain ⟨c, g⟩ := env
  cases c with
  | error e => simp [Run.call, Event.isNetworksUpdate]
  | ok _ =>
    cases g with
    | error e => simp [Run.call, Event.isNetworksUpdate]
    | ok n => simp [Run.call, Event.isNetworksUpdate]

/-- No event of the network's Read is a call of `networks.Update`. -/
theorem resourceNetworkingNetworkV2Read_not_update {Config : Type} (h : Helpers Config)
    (d : ResourceData) (config : Config) (env : NetworkReadEnv) (id : String)
    (x : UpdateOptsBuilder) :
    Event.NetworksUpdate id x ∉ (resourceNetworkingNetworkV2Read h d config env).run.events := by
  unfold resourceNetworkingNetworkV2Read
  obtain ⟨c, g⟩ := env
  cases c with
  | error e => simp [Run.call]
  | ok _ =>
    cases g with
    | error e => simp [Run.call]
    | ok n => simp [Run.call]

/-- Claim C12. In the Update of the network each of `Name`, `Description`,
`AdminStateUp` and `Shared` of the basic update options is non-nil exactly
when `HasChange` holds for `name`, `description`, `admin_state_up`,
respectively `shared`, and then points to what `d.Get` reads, which is the new
value of `GetChange` as long as nothing has been written with `d.Set`; the
basic options are the bottom of the final options, and the final options are
the only ones `networks.Update` is called with.  When no attribute has
changed, the final options are the zero-valued `UpdateOpts` without any
extension around it, and, once the client exists, `networks.Update` is
called with them, exactly once. -/
theorem resourceNetworkingNetworkV2Update_opts {Config : Type} (h : Helpers Config)
    (tagsHelper : ResourceData → List String) (d : ResourceData) (config : Config)
    (env : NetworkUpdateEnv) :
    let sch := resourceNetworkingNetworkV2.Schema
    let basic := resourceNetworkingNetworkV2UpdateBasicOpts d
    let final := resourceNetworkingNetworkV2UpdateFinalOpts h d basic
    let out := resourceNetworkingNetworkV2Update h tagsHelper d config env
    basic.Name =
      (if d.HasChange sch "name" then some (asString (d.Get sch "name")) else none) ∧
    basic.Description =
      (if d.HasChange sch "description" then some (asString (d.Get sch "description"))
       else none) ∧
    basic.AdminStateUp =
      (if d.HasChange sch "admin_state_up" then some (asBool (d.Get sch "admin_state_up"))
       else none) ∧
    basic.Shared =
      (if d.HasChange sch "shared" then some (asBool (d.Get sch "shared")) else none) ∧
    final.basic = basic ∧
    (∀ key, d.written = [] → d.Get sch key = (d.GetChange sch key).2) ∧
    (∀ x, Event.NetworksUpdate d.id x ∈ out.run.events → x = final) ∧
    ((∀ key, d.HasChange sch key = false) →
      final = .base {} ∧
      (env.NetworkingV2Client = .ok () →
        Event.NetworksUpdate d.id (.base {}) ∈ out.run.events ∧
        out.run.events.countP Event.isNetworksUpdate = 1)) := by
  intro sch basic final out
  have hb : basic.Name =
      (if d.HasChange sch "name" then some (asString (d.Get sch "name")) else none) ∧
    basic.Description =
      (if d.HasChange sch "description" then some (asString (d.Get sch "description"))
       else none) ∧
    basic.AdminStateUp =
      (if d.HasChange sch "admin_state_up" then some (asBool (d.Get sch "admin_state_up"))
       else none) ∧
    basic.Shared =
      (if d.HasChange sch "shared" then some (asBool (d.Get sch "shared")) else none) := by
    simp only [basic]
    unfold resourceNetworkingNetworkV2UpdateBasicOpts
    lift_lets
    extract_lets sch' u0 u1 u2 u3 u4
    have e1 : u1.Name = (if d.HasChange sch' "name" then
        some (asString (d.Get sch' "name")) else none) ∧ u1.Description = none ∧
        u1.AdminStateUp = none ∧ u1.Shared = none := by
      simp only [u1]; split <;> exact ⟨rfl, rfl, rfl, rfl⟩
    have e2 : u2.Name = u1.Name ∧ u2.Description = (if d.HasChange sch' "description" then
        some (asString (d.Get sch' "description")) else none) ∧
        u2.AdminStateUp = none ∧ u2.Shared = none := by
      simp only [u2]
      split
      · exact ⟨rfl, rfl, e1.2.2.1, e1.2.2.2⟩
      · exact ⟨rfl, e1.2.1, e1.2.2.1, e1.2.2.2⟩
    have e3 : u3.Name = u2.Name ∧ u3.Description = u2.Description ∧
        u3.AdminStateUp = (if d.HasChange sch' "admin_state_up" then
          some (asBool (d.Get sch' "admin_state_up")) else none) ∧ u3.Shared = none := by
      simp only [u3]
      split
      · exact ⟨rfl, rfl, rfl, e2.2.2.2⟩
      · exact ⟨rfl, rfl, e2.2.2.1, e2.2.2.2⟩
    have e4 : u4.Name = u3.Name ∧ u4.Description = u3.Description ∧
        u4.AdminStateUp = u3.AdminStateUp ∧
        u4.Shared = (if d.HasChange sch' "shared" then
          some (asBool (d.Get sch' "shared")) else none) := by
      simp only [u4]
      split
      · exact ⟨rfl, rfl, rfl, rfl⟩
      · exact ⟨rfl, rfl, rfl, e3.2.2.2⟩
    exact ⟨by rw [e4.1, e3.1, e2.1, e1.1], by rw [e4.2.1, e3.2.1, e2.2.1],
      by rw [e4.2.2.1, e3.2.2.1], e4.2.2.2⟩
  have hf : final.basic = basic := by
    simp only [final]
    unfold resourceNetworkingNetworkV2UpdateFinalOpts
    lift_lets
    extract_lets sch' f0 f1 f2 f3 f4 f5 f6
    have e0 : f0.basic = basic := rfl
    have e1 : f1.basic = basic := by simp only [f1]; split <;> exact e0
    have e2 : f2.basic = basic := by simp only [f2]; split <;> exact e1
    have e3 : f3.basic = basic := by simp only [f3]; split <;> exact e2
    have e4 : f4.basic = basic := by simp only [f4]; split <;> exact e3
    have e5 : f5.basic = basic := by simp only [f5]; split <;> exact e4
    simp only [f6]; split <;> exact e5
  refine ⟨hb.1, hb.2.1, hb.2.2.1, hb.2.2.2, hf, ?_, ?_, ?_⟩
  · intro key hw
    have hd : ({ d with written := [] } : ResourceData) = d := by
      cases d; simp_all
    simp only [ResourceData.GetChange, hd]
  · intro x
    simp only [out]
    unfold resourceNetworkingNetworkV2Update
    simp only []
    repeat' split
    all_goals
      simp only [Outcome.after_events, Run.call_events, List.nil_append, List.cons_append,
        List.mem_append, List.mem_cons, List.mem_singleton, List.not_mem_nil, or_false,
        false_or, reduceCtorEq, Event.NetworksUpdate.injEq, true_and,
        resourceNetworkingNetworkV2Read_not_update, false_implies, imp_self]
  · intro hno
    have hbasic : basic = {} := by
      cases hbv : basic with
      | mk a n de sh =>
        rw [hbv] at hb
        simp only [hno, Bool.false_eq_true, if_false] at hb
        obtain ⟨h1, h2, h3, h4⟩ := hb
        rw [h1, h2, h3, h4]
    have hfinal : final = .base {} := by
      simp only [final, hbasic]
      unfold resourceNetworkingNetworkV2UpdateFinalOpts
      simp only [hno, Bool.false_eq_true, if_false]
    refine ⟨hfinal, fun hc => ?_⟩
    have hfin' : resourceNetworkingNetworkV2UpdateFinalOpts h d
        (resourceNetworkingNetworkV2UpdateBasicOpts d) = .base {} := hfinal
    simp only [out]
    unfold resourceNetworkingNetworkV2Update
    simp only [hc, hno, Bool.false_eq_true, if_false, hfin']
    split
    · simp [Run.call, Event.isNetworksUpdate]
    · simp [Run.call, Event.isNetworksUpdate, resourceNetworkingNetworkV2Read_no_update]

set_option maxRecDepth 100000 in
/-- On the sample network nothing has changed, the final update options are the
zero-valued `UpdateOpts`, and Update calls `networks.Update` exactly once. -/
theorem resourceNetworkingNetworkV2Update_opts_witness :
    (∀ key, exampleNetworkState.HasChange resourceNetworkingNetworkV2.Schema key = false) ∧
    resourceNetworkingNetworkV2UpdateFinalOpts exampleHelpers exampleNetworkState
      (resourceNetworkingNetworkV2UpdateBasicOpts exampleNetworkState) = .base {} ∧
    (resourceNetworkingNetworkV2Update exampleHelpers (fun _ => []) exampleNetworkState ()
      exampleNetworkUpdateEnv).run.events.countP Event.isNetworksUpdate = 1 := by
  have hno : ∀ key,
      exampleNetworkState.HasChange resourceNetworkingNetworkV2.Schema key = false :=
    fun key => HasChange_of_no_diff _ _ key rfl rfl
  have hall := (resourceNetworkingNetworkV2Update_opts exampleHelpers (fun _ => [])
    exampleNetworkState () exampleNetworkUpdateEnv).2.2.2.2.2.2.2 hno
  exact ⟨hno, hall.1, (hall.2 rfl).2⟩

/-- Claim C13. With client creation and `networks.Delete` succeeding: when the
wait succeeds, the Delete of the network returns no diagnostics and leaves
the empty ID; when the wait fails, Delete returns an error and the resource
data, the ID included, is what it was. -/
theorem resourceNetworkingNetworkV2Delete_id {Config : Type} (h : Helpers Config)
    (d : ResourceData) (config : Config) :
    ((resourceNetworkingNetworkV2Delete h d config
        { NetworkingV2Client := .ok (), NetworksDelete := none,
          WaitForStateContext := none }).diags = [] ∧
      (resourceNetworkingNetworkV2Delete h d config
        { NetworkingV2Client := .ok (), NetworksDelete := none,
          WaitForStateContext := none }).run.d.id = "") ∧
    (∀ err : GoError,
      (resourceNetworkingNetworkV2Delete h d config
        { NetworkingV2Client := .ok (), NetworksDelete := none,
          WaitForStateContext := some err }).diags ≠ [] ∧
      (resourceNetworkingNetworkV2Delete h d config
        { NetworkingV2Client := .ok (), NetworksDelete := none,
          WaitForStateContext := some err }).run.d.id = d.id ∧
      (resourceNetworkingNetworkV2Delete h d config
        { NetworkingV2Client := .ok (), NetworksDelete := none,
          WaitForStateContext := some err }).run.d = d) := by
  refine ⟨⟨rfl, rfl⟩, fun err => ⟨?_, rfl, rfl⟩⟩
  simp [resourceNetworkingNetworkV2Delete]

/-! ## Theorems: waiting for state changes -/

/-- The Read of the volume attachment never waits for a state change. -/
theorem resourceBlockStorageVolumeAttachV2Read_no_wait {Config : Type} (h : Helpers Config)
    (d : ResourceData) (config : Config) (env : VolumeAttachReadEnv)
    (conf : StateChangeConf) :
    Event.WaitForStateContext conf ∉
      (resourceBlockStorageVolumeAttachV2Read h d config env).run.events := by
  unfold resourceBlockStorageVolumeAttachV2Read
  obtain ⟨c, g⟩ := env
  cases c <;> simp [Run.call]
  cases h.blockStorageVolumeAttachV2ParseID d.id <;> simp
  cases g <;> simp

/-- The Read of the network never waits for a state change. -/
theorem resourceNetworkingNetworkV2Read_no_wait {Config : Type} (h : Helpers Config)
    (d : ResourceData) (config : Config) (env : NetworkReadEnv) (conf : StateChangeConf) :
    Event.WaitForStateContext conf ∉
      (resourceNetworkingNetworkV2Read h d config env).run.events := by
  unfold resourceNetworkingNetworkV2Read
  obtain ⟨c, g⟩ := env
  cases c with
  | error e => simp [Run.call]
  | ok _ =>
    cases g with
    | error e => simp [Run.call]
    | ok n => simp [Run.call]

/-- Every wait of the volume attachment's Create has pending `available`,
`attaching` and target `in-use`. -/
theorem resourceBlockStorageVolumeAttachV2Create_wait {Config : Type} (h : Helpers Config)
    (d : ResourceData) (config : Config) (env : VolumeAttachCreateEnv)
    (conf : StateChangeConf)
    (hmem : Event.WaitForStateContext conf ∈
      (resourceBlockStorageVolumeAttachV2Create h d config env).run.events) :
    conf.Pending = ["available", "attaching"] ∧ conf.Target = ["in-use"] := by
  revert hmem
  unfold resourceBlockStorageVolumeAttachV2Create
  simp only []
  repeat' split
  all_goals
    simp only [Outcome.after_events, Run.SetId_events, Run.call_events,
      resourceBlockStorageVolumeAttachV2CreateSetConnInfo_events, List.nil_append,
      List.cons_append, List.mem_append, List.mem_cons, List.mem_singleton,
      List.not_mem_nil, or_false, false_or, reduceCtorEq,
      Event.WaitForStateContext.injEq, resourceBlockStorageVolumeAttachV2Read_no_wait,
      false_implies]
  all_goals
    intro hc
    rw [hc]
    exact ⟨rfl, rfl⟩

/-- Every wait of the volume attachment's Delete has pending `in-use`,
`attaching`, `detaching` and target `available`. -/
theorem resourceBlockStorageVolumeAttachV2Delete_wait {Config : Type} (h : Helpers Config)
    (d : ResourceData) (config : Config) (env : VolumeAttachDeleteEnv)
    (conf : StateChangeConf)
    (hmem : Event.WaitForStateContext conf ∈
      (resourceBlockStorageVolumeAttachV2Delete h d config env).run.events) :
    conf.Pending = ["in-use", "attaching", "detaching"] ∧ conf.Target = ["available"] := by
  revert hmem
  unfold resourceBlockStorageVolumeAttachV2Delete
  simp only []
  repeat' split
  all_goals
    simp only [Run.call_events, List.nil_append, List.cons_append, List.mem_append,
      List.mem_cons, List.mem_singleton, List.not_mem_nil, or_false, false_or,
      reduceCtorEq, Event.WaitForStateContext.injEq, false_implies]
  all_goals
    intro hc
    rw [hc]
    exact ⟨rfl, rfl⟩

/-- Every wait of the network's Create has pending `BUILD` and target `ACTIVE`,
`DOWN`. -/
theorem resourceNetworkingNetworkV2Create_wait {Config : Type} (h : Helpers Config)
    (d : ResourceData) (config : Config) (env : NetworkCreateEnv) (conf : StateChangeConf)
    (hmem : Event.WaitForStateContext conf ∈
      (resourceNetworkingNetworkV2Create h d config env).run.events) :
    conf.Pending = ["BUILD"] ∧ conf.Target = ["ACTIVE", "DOWN"] := by
  revert hmem
  unfold resourceNetworkingNetworkV2Create
  simp only []
  repeat' split
  all_goals
    simp only [Outcome.after_events, Run.SetId_events, Run.call_events, List.nil_append,
      List.cons_append, List.mem_append, List.mem_cons, List.mem_singleton,
      List.not_mem_nil, or_false, false_or, reduceCtorEq,
      Event.WaitForStateContext.injEq, resourceNetworkingNetworkV2Read_no_wait,
      false_implies]
  all_goals
    intro hc
    rw [hc]
    exact ⟨rfl, rfl⟩

/-- Every wait of the network's Delete has pending `ACTIVE` and target
`DELETED`. -/
theorem resourceNetworkingNetworkV2Delete_wait {Config : Type} (h : Helpers Config)
    (d : ResourceData) (config : Config) (env : NetworkDeleteEnv) (conf : StateChangeConf)
    (hmem : Event.WaitForStateContext conf ∈
      (resourceNetworkingNetworkV2Delete h d config env).run.events) :
    conf.Pending = ["ACTIVE"] ∧ conf.Target = ["DELETED"] := by
  revert hmem
  unfold resourceNetworkingNetworkV2Delete
  simp only []
  repeat' split
  all_goals
    simp only [Run.SetId_events, Run.call_events, List.nil_append,
      List.cons_append, List.mem_append, List.mem_cons, List.mem_singleton,
      List.not_mem_nil, or_false, false_or, reduceCtorEq,
      Event.WaitForStateContext.injEq, false_implies]
  all_goals
    intro hc
    rw [hc]
    exact ⟨rfl, rfl⟩

/-- Claim C14. In each of the four handlers that wait for a state change, every
wait has the pending and target statuses listed here, the two sets are
disjoint and the target set is not empty: volume attachment Create, volume
attachment Delete, network Create, network Delete. -/
theorem StateChangeConf_pending_target {Config : Type} (h : Helpers Config)
    (config : Config) :
    (∀ (d : ResourceData) (env : VolumeAttachCreateEnv) (conf : StateChangeConf),
      Event.WaitForStateContext conf ∈
        (resourceBlockStorageVolumeAttachV2Create h d config env).run.events →
      conf.Pending = ["available", "attaching"] ∧ conf.Target = ["in-use"] ∧
      (∀ x ∈ conf.Pending, x ∉ conf.Target) ∧ conf.Target ≠ []) ∧
    (∀ (d : ResourceData) (env : VolumeAttachDeleteEnv) (conf : StateChangeConf),
      Event.WaitForStateContext conf ∈
        (resourceBlockStorageVolumeAttachV2Delete h d config env).run.events →
      conf.Pending = ["in-use", "attaching", "detaching"] ∧ conf.Target = ["available"] ∧
      (∀ x ∈ conf.Pending, x ∉ conf.Target) ∧ conf.Target ≠ []) ∧
    (∀ (d : ResourceData) (env : NetworkCreateEnv) (conf : StateChangeConf),
      Event.WaitForStateContext conf ∈
        (resourceNetworkingNetworkV2Create h d config env).run.events →
      conf.Pending = ["BUILD"] ∧ conf.Target = ["ACTIVE", "DOWN"] ∧
      (∀ x ∈ conf.Pending, x ∉ conf.Target) ∧ conf.Target ≠ []) ∧
    (∀ (d : ResourceData) (env : NetworkDeleteEnv) (conf : StateChangeConf),
      Event.WaitForStateContext conf ∈
        (resourceNetworkingNetworkV2Delete h d config env).run.events →
      conf.Pending = ["ACTIVE"] ∧ conf.Target = ["DELETED"] ∧
      (∀ x ∈ conf.Pending, x ∉ conf.Target) ∧ conf.Target ≠ []) := by
  refine ⟨fun d env conf hm => ?_, fun d env conf hm => ?_, fun d env conf hm => ?_,
    fun d env conf hm => ?_⟩
  · obtain ⟨hp, ht⟩ := resourceBlockStorageVolumeAttachV2Create_wait h d config env conf hm
    rw [hp, ht]
    exact ⟨rfl, rfl, by decide, by decide⟩
  · obtain ⟨hp, ht⟩ := resourceBlockStorageVolumeAttachV2Delete_wait h d config env conf hm
    rw [hp, ht]
    exact ⟨rfl, rfl, by decide, by decide⟩
  · obtain ⟨hp, ht⟩ := resourceNetworkingNetworkV2Create_wait h d config env conf hm
    rw [hp, ht]
    exact ⟨rfl, rfl, by decide, by decide⟩
  · obtain ⟨hp, ht⟩ := resourceNetworkingNetworkV2Delete_wait h d config env conf hm
    rw [hp, ht]
    exact ⟨rfl, rfl, by decide, by decide⟩

set_option maxRecDepth 100000 in
/-- On the sample inputs each of the four handlers reaches its wait, with the
pending and target statuses of the source. -/
theorem StateChangeConf_pending_target_witness :
    Event.WaitForStateContext
        { Pending := ["available", "attaching"], Target := ["in-use"], refreshID := "vol-1",
          Timeout := .TimeoutCreate, Delay := 10, MinTimeout := 3 } ∈
      (resourceBlockStorageVolumeAttachV2Create exampleHelpers exampleAttachData ()
        exampleAttachEnv).run.events ∧
    Event.WaitForStateContext
        { Pending := ["in-use", "attaching", "detaching"], Target := ["available"],
          refreshID := "vol-1", Timeout := .TimeoutDelete, Delay := 10, MinTimeout := 3 } ∈
      (resourceBlockStorageVolumeAttachV2Delete exampleHelpers exampleAttachState ()
        exampleAttachDeleteEnv).run.events ∧
    Event.WaitForStateContext
        { Pending := ["BUILD"], Target := ["ACTIVE", "DOWN"], refreshID := "net-1",
          Timeout := .TimeoutCreate, Delay := 5, MinTimeout := 3 } ∈
      (resourceNetworkingNetworkV2Create exampleHelpers exampleNetworkData ()
        exampleNetworkCreateEnv).run.events ∧
    Event.WaitForStateContext
        { Pending := ["ACTIVE"], Target := ["DELETED"], refreshID := "net-1",
          Timeout := .TimeoutDelete, Delay := 5, MinTimeout := 3 } ∈
      (resourceNetworkingNetworkV2Delete exampleHelpers exampleNetworkState ()
        exampleNetworkDeleteEnv).run.events := by
  decide

/-! ## Theorems: the volume attachment, continued -/

/-- Claim C16. The connection options of Create have `Host`, `IP`, `Initiator`,
`OSType` and `Platform` equal to what `host_name`, `ip_address`,
`initiator`, `os_type` and `platform` read as, which is the configured value
when it is non-empty and the empty string otherwise; `Multipath` points to
true when `multipath` reads as true and is nil otherwise, so a configured
false is not sent.  (`Wwnns` and `Wwpns` are always empty.) -/
theorem resourceBlockStorageVolumeAttachV2CreateConnOpts_fields (d : ResourceData) :
    let sch := resourceBlockStorageVolumeAttachV2.Schema
    resourceBlockStorageVolumeAttachV2CreateConnOpts d =
      { Host := asString (d.Get sch "host_name"),
        IP := asString (d.Get sch "ip_address"),
        Initiator := asString (d.Get sch "initiator"),
        OSType := asString (d.Get sch "os_type"),
        Platform := asString (d.Get sch "platform"),
        Multipath := (if asBool (d.Get sch "multipath") then some true else none),
        Wwnns := "", Wwpns := [] } := by
  intro sch
  have l1 : resourceBlockStorageVolumeAttachV2.Schema.lookup "wwnns" = none := by rfl
  have l2 : resourceBlockStorageVolumeAttachV2.Schema.lookup "wwpns" = none := by rfl
  have h1 : (d.GetOk sch "wwnns").2 = false := by
    simp only [ResourceData.GetOk, sch, l1]
  have h2 : (d.GetOk sch "wwpns").2 = false := by
    simp only [ResourceData.GetOk, sch, l2]
  have kh : sch.lookup "host_name" =
      some { Type_ := .TypeString, Required := true, ForceNew := true } := by rfl
  have ki : sch.lookup "ip_address" =
      some { Type_ := .TypeString, Optional := true, ForceNew := true } := by rfl
  have kn : sch.lookup "initiator" =
      some { Type_ := .TypeString, Optional := true, ForceNew := true } := by rfl
  have ko : sch.lookup "os_type" =
      some { Type_ := .TypeString, Optional := true, ForceNew := true } := by rfl
  have kp : sch.lookup "platform" =
      some { Type_ := .TypeString, Optional := true, ForceNew := true } := by rfl
  have km : sch.lookup "multipath" =
      some { Type_ := .TypeBool, Optional := true, ForceNew := true } := by rfl
  unfold resourceBlockStorageVolumeAttachV2CreateConnOpts
  lift_lets
  extract_lets sch' o0 o1 o2 o3 o4 o5 o6 o7 o8
  have e1 : o1 = { Host := asString (d.Get sch "host_name") } := by
    simp only [o1]
    split
    · rename_i hok
      simp only [o0, GetOk_fst]
    · rename_i hok
      have := asString_of_GetOk_false sch d "host_name" _ kh rfl (by simpa using hok)
      rw [this]
  have e2 : o2 =
      { Host := asString (d.Get sch "host_name"),
        Multipath := (if asBool (d.Get sch "multipath") then some true else none) } := by
    simp only [o2]
    split
    · rename_i hok
      have := asBool_of_GetOk_true sch d "multipath" _ km rfl hok
      rw [e1]
      simp only [GetOk_fst, sch'] at *
      simp only [this, if_true]
    · rename_i hok
      have := asBool_of_GetOk_false sch d "multipath" _ km rfl (by simpa using hok)
      rw [e1, this]
      rfl
  have e3 : o3 =
      { Host := asString (d.Get sch "host_name"),
        Multipath := (if asBool (d.Get sch "multipath") then some true else none),
        IP := asString (d.Get sch "ip_address") } := by
    simp only [o3]
    split
    · rw [e2]
      simp only [GetOk_fst]
    · rename_i hok
      have := asString_of_GetOk_false sch d "ip_address" _ ki rfl (by simpa using hok)
      rw [e2, this]
  have e4 : o4 =
      { Host := asString (d.Get sch "host_name"),
        Multipath := (if asBool (d.Get sch "multipath") then some true else none),
        IP := asString (d.Get sch "ip_address"),
        Initiator := asString (d.Get sch "initiator") } := by
    simp only [o4]
    split
    · rw [e3]
      simp only [GetOk_fst]
    · rename_i hok
      have := asString_of_GetOk_false sch d "initiator" _ kn rfl (by simpa using hok)
      rw [e3, this]
  have e5 : o5 =
      { Host := asString (d.Get sch "host_name"),
        Multipath := (if asBool (d.Get sch "multipath") then some true else none),
        IP := asString (d.Get sch "ip_address"),
        Initiator := asString (d.Get sch "initiator"),
        OSType := asString (d.Get sch "os_type") } := by
    simp only [o5]
    split
    · rw [e4]
      simp only [GetOk_fst]
    · rename_i hok
      have := asString_of_GetOk_false sch d "os_type" _ ko rfl (by simpa using hok)
      rw [e4, this]
  have e6 : o6 =
      { Host := asString (d.Get sch "host_name"),
        Multipath := (if asBool (d.Get sch "multipath") then some true else none),
        IP := asString (d.Get sch "ip_address"),
        Initiator := asString (d.Get sch "initiator"),
        OSType := asString (d.Get sch "os_type"),
        Platform := asString (d.Get sch "platform") } := by
    simp only [o6]
    split
    · rw [e5]
      simp only [GetOk_fst]
    · rename_i hok
      have := asString_of_GetOk_false sch d "platform" _ kp rfl (by simpa using hok)
      rw [e5, this]
  have e7 : o7 = o6 := by
    simp only [o7, sch', h1]
    rfl
  have e8 : o8 = o7 := by
    simp only [o8, sch', h2]
    rfl
  rw [e8, e7, e6]

/-- Claim C17 as stated fails: there are no helpers, resource data and two
retrieved volumes with different attachments for which two successful Reads
leave different resource data. -/
theorem resourceBlockStorageVolumeAttachV2Read_no_reflection :
    ¬ ∃ (h : Helpers Unit) (d : ResourceData) (volume₁ volume₂ : Volume),
      volume₁.Attachments ≠ volume₂.Attachments ∧
      (resourceBlockStorageVolumeAttachV2Read h d ()
        { BlockStorageV2Client := .ok (), VolumesGet := .ok volume₁ }).diags = [] ∧
      (resourceBlockStorageVolumeAttachV2Read h d ()
        { BlockStorageV2Client := .ok (), VolumesGet := .ok volume₂ }).diags = [] ∧
      (resourceBlockStorageVolumeAttachV2Read h d ()
        { BlockStorageV2Client := .ok (), VolumesGet := .ok volume₁ }).run.d ≠
      (resourceBlockStorageVolumeAttachV2Read h d ()
        { BlockStorageV2Client := .ok (), VolumesGet := .ok volume₂ }).run.d := by
  rintro ⟨h, d, v1, v2, _, _, _, hne⟩
  apply hne
  rw [resourceBlockStorageVolumeAttachV2Read_d, resourceBlockStorageVolumeAttachV2Read_d]

/-- Claim C17, amended. The Read of the volume attachment leaves the resource
data as it was, whatever volume is retrieved: the ID and every attribute are
unchanged and `SetId` is never called. -/
theorem resourceBlockStorageVolumeAttachV2Read_unchanged {Config : Type}
    (h : Helpers Config) (d : ResourceData) (config : Config)
    (env : VolumeAttachReadEnv) :
    (resourceBlockStorageVolumeAttachV2Read h d config env).run.d = d ∧
    (resourceBlockStorageVolumeAttachV2Read h d config env).run.d.id = d.id ∧
    (∀ key, (resourceBlockStorageVolumeAttachV2Read h d config env).run.d.Get
        resourceBlockStorageVolumeAttachV2.Schema key =
      d.Get resourceBlockStorageVolumeAttachV2.Schema key) ∧
    (∀ id, Event.SetId id ∉
      (resourceBlockStorageVolumeAttachV2Read h d config env).run.events) := by
  have hd := resourceBlockStorageVolumeAttachV2Read_d h d config env
  refine ⟨hd, by rw [hd], fun key => by rw [hd], fun id => ?_⟩
  exact resourceBlockStorageVolumeAttachV2Read_events h d config env id

/-- Claim C18. The volume attachment resource has Create, Read and Delete but no
Update, and every attribute of its schema that is Required or Optional is
ForceNew. -/
theorem resourceBlockStorageVolumeAttachV2_force_new :
    resourceBlockStorageVolumeAttachV2.CreateContext = true ∧
    resourceBlockStorageVolumeAttachV2.ReadContext = true ∧
    resourceBlockStorageVolumeAttachV2.DeleteContext = true ∧
    resourceBlockStorageVolumeAttachV2.UpdateContext = false ∧
    (∀ p ∈ resourceBlockStorageVolumeAttachV2.Schema,
      (p.2.Required = true ∨ p.2.Optional = true) → p.2.ForceNew = true) := by
  decide

/-! ## Theorems: the acceptance checks -/

/-- When the loop over the expected subports succeeds, what it collected are the
IDs of the named resources, one per name. -/
theorem collectSubportResources_ok (s : Resources) (names : List String)
    (subports : List Port) (m : List String)
    (hlen : names.length = subports.length)
    (hok : collectSubportResources s names subports = .ok m) :
    m = names.filterMap (fun name => (s.lookup name).map (fun r => r.Primary.ID)) ∧
    m.length = names.length ∧
    ∀ x ∈ m, ∃ name ∈ names, ∃ r, s.lookup name = some r ∧ r.Primary.ID = x := by
  induction names generalizing subports m with
  | nil =>
    cases subports with
    | nil =>
      simp [collectSubportResources] at hok
      subst hok
      simp
    | cons p ps => simp at hlen
  | cons name names ih =>
    cases subports with
    | nil => simp at hlen
    | cons p ps =>
      simp only [List.length_cons, Nat.add_right_cancel_iff] at hlen
      unfold collectSubportResources at hok
      cases hl : s.lookup name with
      | none => simp [hl] at hok
      | some r =>
        simp only [hl] at hok
        cases hrec : collectSubportResources s names ps with
        | error e => simp [hrec] at hok
        | ok m' =>
          simp only [hrec, Except.ok.injEq] at hok
          subst hok
          obtain ⟨h1, h2, h3⟩ := ih ps m' hlen hrec
          refine ⟨?_, ?_, ?_⟩
          · simp [List.filterMap_cons, hl, ← h1]
          · simp [h2]
          · intro x hx
            rcases List.mem_cons.mp hx with hx | hx
            · exact ⟨name, by simp, r, hl, hx.symm⟩
            · obtain ⟨nm, hnm, r', hr', hid⟩ := h3 x hx
              exact ⟨nm, by simp [hnm], r', hr', hid⟩

/-- A list without duplicates that lies inside a list that is not longer has the
same elements. -/
theorem mem_iff_of_nodup_subset_length (l₁ l₂ : List String) (hn : l₁.Nodup)
    (hsub : ∀ x ∈ l₁, x ∈ l₂) (hlen : l₂.length ≤ l₁.length) :
    ∀ x, x ∈ l₁ ↔ x ∈ l₂ := by
  have hsp : l₁.Subperm l₂ := List.Nodup.subperm hn hsub
  have hp : l₁.Perm l₂ := hsp.perm_of_length_le hlen
  exact fun x => hp.mem_iff

/-- Claim C19. For the trunk check with at least one expected subport: the check
fails when the number of subport resource names differs from the number of
expected subports; and when it succeeds, the retrieved trunk has as many
subports as expected, every retrieved subport's `PortID` is the ID of one
of the named subport resources, and so, when the retrieved `PortID`s are
pairwise distinct, they are exactly the IDs of the named resources. -/
theorem testAccCheckNetworkingV2TrunkExists_subports (n : String)
    (subportResourceNames : List String) (subports : List Port)
    (s : Resources) (env : TrunkExistsEnv) (hpos : 0 < subports.length) :
    (subportResourceNames.length ≠ subports.length →
      (testAccCheckNetworkingV2TrunkExists n subportResourceNames subports s env).1 ≠
        none) ∧
    ((testAccCheckNetworkingV2TrunkExists n subportResourceNames subports s env).1 = none →
      ∃ found expected,
        env.TrunksGet = .ok found ∧
        (testAccCheckNetworkingV2TrunkExists n subportResourceNames subports s env).2 =
          some found ∧
        expected = subportResourceNames.filterMap
          (fun name => (s.lookup name).map (fun r => r.Primary.ID)) ∧
        expected.length = subports.length ∧
        found.Subports.length = subports.length ∧
        (∀ subport ∈ found.Subports, ∃ name ∈ subportResourceNames, ∃ r,
          s.lookup name = some r ∧ r.Primary.ID = subport.PortID) ∧
        (expected.Nodup → (found.Subports.map (fun subport => subport.PortID)).Nodup →
          ∀ x, x ∈ found.Subports.map (fun subport => subport.PortID) ↔ x ∈ expected)) := by
  have hgt : subports.length > 0 := hpos
  constructor
  · intro hne
    unfold testAccCheckNetworkingV2TrunkExists
    cases s.lookup n with
    | none => simp
    | some rs =>
      by_cases hid : rs.Primary.ID = ""
      · simp [hid]
      · simp [hid, hgt, hne]
  · intro hok
    unfold testAccCheckNetworkingV2TrunkExists at hok ⊢
    cases hl : s.lookup n with
    | none => simp [hl] at hok
    | some rs =>
      simp only [hl] at hok ⊢
      by_cases hid : rs.Primary.ID = ""
      · simp [hid] at hok
      · simp only [hid, if_false, hgt, if_true] at hok ⊢
        by_cases hlen : subportResourceNames.length = subports.length
        · simp only [hlen, ne_eq, not_true_eq_false, if_false] at hok ⊢
          cases hcol : collectSubportResources s subportResourceNames subports with
          | error e => simp [hcol] at hok
          | ok m =>
            simp only [hcol] at hok ⊢
            obtain ⟨hm1, hm2, hm3⟩ :=
              collectSubportResources_ok s subportResourceNames subports m hlen hcol
            cases hc : env.NetworkingV2Client with
            | error e => simp [hc] at hok
            | ok _ =>
              simp only [hc] at hok ⊢
              cases hg : env.TrunksGet with
              | error e => simp [hg] at hok
              | ok found =>
                simp only [hg] at hok ⊢
                by_cases hfl : found.Subports.length = subports.length
                · simp only [hfl, ne_eq, not_true_eq_false, if_false] at hok ⊢
                  cases hfind : found.Subports.find?
                      (fun subport => !decide (subport.PortID ∈ m)) with
                  | some sp => simp [hfind] at hok
                  | none =>
                    simp only [hfind] at hok ⊢
                    by_cases h1 : found.ID ≠ rs.Primary.ID
                    · simp [h1] at hok
                    · by_cases h2 : found.Name ≠
                          (rs.Primary.Attributes.lookup "name").getD ""
                      · simp [h1, h2] at hok
                      · have hall : ∀ sp ∈ found.Subports, sp.PortID ∈ m := by
                          intro sp hsp
                          have := List.find?_eq_none.mp hfind sp hsp
                          simpa using this
                        refine ⟨found, m, rfl, by simp [h1, h2], hm1, ?_, hfl, ?_, ?_⟩
                        · rw [hm2, hlen]
                        · intro sp hsp
                          exact hm3 _ (hall sp hsp)
                        · intro _ hnd
                          apply mem_iff_of_nodup_subset_length _ _ hnd
                          · intro x hx
                            obtain ⟨sp, hsp, rfl⟩ := List.mem_map.mp hx
                            exact hall sp hsp
                          · simp [hm2, hlen, hfl]
                · simp [hfl] at hok
        · simp [hlen] at hok

/-- The loop of the destroy check ends without an error exactly when `Get` fails
with a 404 error for every site connection of the state. -/
theorem testAccCheckSiteConnectionV2DestroyLoop_nil_iff
    (get : String → Except GoError Connection) (s : Resources) :
    (testAccCheckSiteConnectionV2DestroyLoop get s).1 = none ↔
      ∀ p ∈ s, p.2.Type_ = "viettelidc_vpnaas_site_connection_v2" →
        ∃ m, get p.2.Primary.ID = .error (.ErrDefault404 m) := by
  induction s with
  | nil => simp [testAccCheckSiteConnectionV2DestroyLoop]
  | cons p rest ih =>
    obtain ⟨name, rs⟩ := p
    unfold testAccCheckSiteConnectionV2DestroyLoop
    by_cases ht : rs.Type_ = "viettelidc_vpnaas_site_connection_v2"
    · simp only [ht, ne_eq, not_true_eq_false, if_false, List.mem_cons, forall_eq_or_imp,
        forall_true_left]
      cases hg : get rs.Primary.ID with
      | ok c => simp
      | error e =>
        cases e with
        | ErrDefault404 m => simp [ih]
        | other m => simp
    · simp only [ht, ne_eq, not_false_eq_true, if_true, List.mem_cons, forall_eq_or_imp,
        false_implies, true_and]
      exact ih

/-- The loop of the destroy check stops at the first site connection for which
`Get` does not fail with a 404 error: it returns the error for that one and
has called `Get` for it and for the site connections before it only. -/
theorem testAccCheckSiteConnectionV2DestroyLoop_stops
    (get : String → Except GoError Connection)
    (pre post : Resources) (name : String) (rs : ResourceState)
    (hpre : ∀ q ∈ pre, q.2.Type_ = "viettelidc_vpnaas_site_connection_v2" →
      ∃ m, get q.2.Primary.ID = .error (.ErrDefault404 m))
    (ht : rs.Type_ = "viettelidc_vpnaas_site_connection_v2")
    (hbad : ¬ ∃ m, get rs.Primary.ID = .error (.ErrDefault404 m)) :
    (testAccCheckSiteConnectionV2DestroyLoop get (pre ++ (name, rs) :: post)).1 =
      (match get rs.Primary.ID with
       | .ok _ => some (.other ("Site connection (" ++ rs.Primary.ID ++ ") still exists"))
       | .error err => some err) ∧
    (testAccCheckSiteConnectionV2DestroyLoop get (pre ++ (name, rs) :: post)).2 =
      ((pre.filter (fun q => q.2.Type_ = "viettelidc_vpnaas_site_connection_v2")).map
        (fun q => q.2.Primary.ID)) ++ [rs.Primary.ID] := by
  induction pre with
  | nil =>
    simp only [List.nil_append, List.filter_nil, List.map_nil]
    unfold testAccCheckSiteConnectionV2DestroyLoop
    simp only [ht, ne_eq, not_true_eq_false, if_false]
    cases hg : get rs.Primary.ID with
    | ok c => simp
    | error e =>
      cases e with
      | ErrDefault404 m => exact absurd ⟨m, hg⟩ hbad
      | other m => simp
  | cons q pre ih =>
    obtain ⟨qn, qrs⟩ := q
    have hpre' : ∀ q ∈ pre, q.2.Type_ = "viettelidc_vpnaas_site_connection_v2" →
        ∃ m, get q.2.Primary.ID = .error (.ErrDefault404 m) :=
      fun q hq => hpre q (List.mem_cons_of_mem _ hq)
    obtain ⟨ih1, ih2⟩ := ih hpre'
    simp only [List.cons_append]
    unfold testAccCheckSiteConnectionV2DestroyLoop
    by_cases hqt : qrs.Type_ = "viettelidc_vpnaas_site_connection_v2"
    · obtain ⟨m, hm⟩ := hpre (qn, qrs) (by simp) hqt
      have hm' : get qrs.Primary.ID = .error (.ErrDefault404 m) := hm
      simp [hqt, hm', ih1, ih2, List.filter_cons]
    · simp [hqt, ih1, ih2, List.filter_cons]

/-- Claim C20. With client creation succeeding, the destroy check returns nil
exactly when `siteconnections.Get` fails with a 404 error for every resource
of type `viettelidc_vpnaas_site_connection_v2`; and it stops at the first
such resource for which `Get` succeeds or fails with another error: it
returns `still exists`, respectively that error, and has called `Get` for no
resource after it. -/
theorem testAccCheckSiteConnectionV2Destroy_nil_iff (s : Resources)
    (get : String → Except GoError Connection) :
    ((testAccCheckSiteConnectionV2Destroy s
        { NetworkingV2Client := .ok (), SiteConnectionsGet := get }).1 = none ↔
      ∀ p ∈ s, p.2.Type_ = "viettelidc_vpnaas_site_connection_v2" →
        ∃ m, get p.2.Primary.ID = .error (.ErrDefault404 m)) ∧
    (∀ (pre post : Resources) (name : String) (rs : ResourceState),
      s = pre ++ (name, rs) :: post →
      (∀ q ∈ pre, q.2.Type_ = "viettelidc_vpnaas_site_connection_v2" →
        ∃ m, get q.2.Primary.ID = .error (.ErrDefault404 m)) →
      rs.Type_ = "viettelidc_vpnaas_site_connection_v2" →
      (¬ ∃ m, get rs.Primary.ID = .error (.ErrDefault404 m)) →
      (testAccCheckSiteConnectionV2Destroy s
        { NetworkingV2Client := .ok (), SiteConnectionsGet := get }).1 =
        (match get rs.Primary.ID with
         | .ok _ =>
           some (.other ("Site connection (" ++ rs.Primary.ID ++ ") still exists"))
         | .error err => some err) ∧
      (testAccCheckSiteConnectionV2Destroy s
        { NetworkingV2Client := .ok (), SiteConnectionsGet := get }).2 =
        ((pre.filter (fun q => q.2.Type_ = "viettelidc_vpnaas_site_connection_v2")).map
          (fun q => q.2.Primary.ID)) ++ [rs.Primary.ID]) := by
  refine ⟨testAccCheckSiteConnectionV2DestroyLoop_nil_iff get s, ?_⟩
  intro pre post name rs hs hpre ht hbad
  subst hs
  exact testAccCheckSiteConnectionV2DestroyLoop_stops get pre post name rs hpre ht hbad

/-- On the sample state the trunk check succeeds for the two named subports,
and the `PortID`s of the retrieved trunk are exactly `port-1` and
`port-2`. -/
theorem testAccCheckNetworkingV2TrunkExists_subports_witness :
    (testAccCheckNetworkingV2TrunkExists "viettelidc_networking_trunk_v2.trunk_1"
      ["viettelidc_networking_port_v2.subport_1", "viettelidc_networking_port_v2.subport_2"]
      [{ ID := "port-1" }, { ID := "port-2" }] exampleResources exampleTrunkEnv).1 = none ∧
    ∃ found,
      exampleTrunkEnv.TrunksGet = .ok found ∧
      found.Subports.length = 2 ∧
      ∀ x, x ∈ found.Subports.map (fun subport => subport.PortID) ↔
        x ∈ ["port-1", "port-2"] := by
  have hok : (testAccCheckNetworkingV2TrunkExists "viettelidc_networking_trunk_v2.trunk_1"
      ["viettelidc_networking_port_v2.subport_1", "viettelidc_networking_port_v2.subport_2"]
      [{ ID := "port-1" }, { ID := "port-2" }] exampleResources exampleTrunkEnv).1 = none := by
    decide
  obtain ⟨found, expected, hg, _, hexp, _, hlen, _, hset⟩ :=
    (testAccCheckNetworkingV2TrunkExists_subports "viettelidc_networking_trunk_v2.trunk_1"
      ["viettelidc_networking_port_v2.subport_1", "viettelidc_networking_port_v2.subport_2"]
      [{ ID := "port-1" }, { ID := "port-2" }] exampleResources exampleTrunkEnv
      (by decide)).2 hok
  have hfound : found = exampleTrunk := by
    have h1 : (Except.ok exampleTrunk : Except GoError Trunk) = .ok found := hg
    injection h1 with h2
    exact h2.symm
  have hexp' : expected = ["port-1", "port-2"] := by
    rw [hexp]
    decide
  subst hfound
  rw [hexp'] at hset
  exact ⟨hok, exampleTrunk, hg, hlen, hset (by decide) (by decide)⟩

/-- On the sample state the destroy check returns nil when the site connection
is gone, and the `still exists` error when it is still there; either way it
calls `Get` for `conn-1` only. -/
theorem testAccCheckSiteConnectionV2Destroy_example :
    testAccCheckSiteConnectionV2Destroy exampleResources exampleDestroyedEnv =
      (none, ["conn-1"]) ∧
    testAccCheckSiteConnectionV2Destroy exampleResources exampleNotDestroyedEnv =
      (some (.other "Site connection (conn-1) still exists"), ["conn-1"]) := by
  decide

/-! ## Theorems: the statuses that Create leaves and Delete waits on -/

/-- For the volume attachment every target status of the Create wait is a
pending status of the Delete wait.  For the network `ACTIVE` is, and `DOWN`,
which is a target status of the Create wait, is not a pending status of the
Delete wait. -/
theorem Create_target_Delete_pending {Config : Type} (h : Helpers Config)
    (config : Config) :
    (∀ (d d' : ResourceData) (env : VolumeAttachCreateEnv) (env' : VolumeAttachDeleteEnv)
        (conf conf' : StateChangeConf),
      Event.WaitForStateContext conf ∈
        (resourceBlockStorageVolumeAttachV2Create h d config env).run.events →
      Event.WaitForStateContext conf' ∈
        (resourceBlockStorageVolumeAttachV2Delete h d' config env').run.events →
      ∀ x ∈ conf.Target, x ∈ conf'.Pending) ∧
    (∀ (d d' : ResourceData) (env : NetworkCreateEnv) (env' : NetworkDeleteEnv)
        (conf conf' : StateChangeConf),
      Event.WaitForStateContext conf ∈
        (resourceNetworkingNetworkV2Create h d config env).run.events →
      Event.WaitForStateContext conf' ∈
        (resourceNetworkingNetworkV2Delete h d' config env').run.events →
      ("ACTIVE" ∈ conf.Target ∧ "ACTIVE" ∈ conf'.Pending) ∧
      ("DOWN" ∈ conf.Target ∧ "DOWN" ∉ conf'.Pending)) := by
  refine ⟨fun d d' env env' conf conf' hc hd => ?_, fun d d' env env' conf conf' hc hd => ?_⟩
  · obtain ⟨_, ht⟩ := resourceBlockStorageVolumeAttachV2Create_wait h d config env conf hc
    obtain ⟨hp, _⟩ := resourceBlockStorageVolumeAttachV2Delete_wait h d' config env' conf' hd
    rw [ht, hp]
    decide
  · obtain ⟨_, ht⟩ := resourceNetworkingNetworkV2Create_wait h d config env conf hc
    obtain ⟨hp, _⟩ := resourceNetworkingNetworkV2Delete_wait h d' config env' conf' hd
    rw [ht, hp]
    decide

set_option maxRecDepth 100000 in
/-- Claim C15: the code on the sample network. The Create wait has `DOWN` among
its target statuses, and the Delete wait, which is reached, does not have
`DOWN` among its pending statuses. -/
theorem resourceNetworkingNetworkV2Delete_wait_misses_DOWN :
    ∃ conf conf' : StateChangeConf,
      Event.WaitForStateContext conf ∈
        (resourceNetworkingNetworkV2Create exampleHelpers exampleNetworkData ()
          exampleNetworkCreateEnv).run.events ∧
      Event.WaitForStateContext conf' ∈
        (resourceNetworkingNetworkV2Delete exampleHelpers exampleNetworkState ()
          exampleNetworkDeleteEnv).run.events ∧
      "DOWN" ∈ conf.Target ∧ "DOWN" ∉ conf'.Pending := by
  refine ⟨{ Pending := ["BUILD"], Target := ["ACTIVE", "DOWN"], refreshID := "net-1",
            Timeout := .TimeoutCreate, Delay := 5, MinTimeout := 3 },
          { Pending := ["ACTIVE"], Target := ["DELETED"], refreshID := "net-1",
            Timeout := .TimeoutDelete, Delay := 5, MinTimeout := 3 }, ?_⟩
  decide

end Openstack
